import Mathlib

/-!
A shallow embedding of PeerDB's CDC flow orchestrator
(`flow/workflows/cdc_flow.go`) together with proofs about it.

The workflow is deterministic; all interaction with the outside world
(signals delivered by selectors, child-workflow and activity completions,
context cancellation, the workflow clock) is resolved by an explicit
environment value, and every externally visible action (catalog writes,
activity and child-workflow launches) is recorded in an effect trace.
Timestamps and durations are modelled in minutes.
-/

/-! ## Data model (mirroring the protobuf types used by cdc_flow.go) -/

inductive FlowStatus
  | STATUS_SETUP
  | STATUS_SNAPSHOT
  | STATUS_RUNNING
  | STATUS_PAUSED
  | STATUS_TERMINATING
  | STATUS_TERMINATED
  | STATUS_COMPLETED
  | STATUS_RESYNC
  deriving DecidableEq

inductive TableEngine
  | CH_ENGINE_NULL
  | CH_ENGINE_REPLACING_MERGE_TREE
  | CH_ENGINE_MERGE_TREE
  deriving DecidableEq

structure TableMapping where
  SourceTableIdentifier : String
  DestinationTableIdentifier : String
  PartitionKey : String
  Exclude : List String
  Engine : TableEngine
  deriving DecidableEq

structure SyncFlowOptions where
  BatchSize : Nat
  IdleTimeoutSeconds : Nat
  TableMappings : List TableMapping
  NumberOfSyncs : Int
  SrcTableIdNameMapping : List (Nat × String)
  deriving DecidableEq

structure FlowConnectionConfigs where
  FlowJobName : String
  SourceName : String
  DestinationName : String
  TableMappings : List TableMapping
  MaxBatchSize : Nat
  IdleTimeoutSeconds : Nat
  DoInitialSnapshot : Bool
  InitialSnapshotOnly : Bool
  Resync : Bool
  SoftDeleteColName : String
  SyncedAtColName : String
  Env : List (String × String)
  SnapshotNumRowsPerPartition : Nat
  SnapshotMaxParallelWorkers : Nat
  SnapshotNumTablesInParallel : Nat
  deriving DecidableEq

structure DropFlowInput where
  FlowJobName : String
  FlowConnectionConfigs : Option FlowConnectionConfigs
  DropFlowStats : Bool
  SkipDestinationDrop : Bool
  Resync : Bool
  deriving DecidableEq

structure RenameTableOption where
  CurrentName : String
  NewName : String
  deriving DecidableEq

structure RenameTablesInput where
  FlowJobName : String
  PeerName : String
  SyncedAtColName : String
  SoftDeleteColName : String
  RenameTableOptions : List RenameTableOption
  deriving DecidableEq

inductive CDCFlowSignal
  | NoopSignal
  | PauseSignal
  | TerminateSignal
  | ResyncSignal
  deriving DecidableEq

structure FlowStateChangeRequest where
  RequestedFlowState : FlowStatus
  DropMirrorStats : Bool
  SkipDestinationDrop : Bool
  deriving DecidableEq

structure CDCFlowConfigUpdate where
  BatchSize : Nat
  IdleTimeout : Nat
  NumberOfSyncs : Int
  UpdatedEnv : Option (List (String × String))
  SnapshotNumRowsPerPartition : Nat
  SnapshotMaxParallelWorkers : Nat
  SnapshotNumTablesInParallel : Nat
  AdditionalTables : List TableMapping
  RemovedTables : List TableMapping
  deriving DecidableEq

structure CDCFlowWorkflowState where
  FlowConfigUpdate : Option CDCFlowConfigUpdate
  SyncFlowOptions : SyncFlowOptions
  DropFlowInput : Option DropFlowInput
  LastError : Int
  ErrorCount : Int
  ActiveSignal : CDCFlowSignal
  CurrentFlowStatus : FlowStatus
  SnapshotNumRowsPerPartition : Nat
  SnapshotMaxParallelWorkers : Nat
  SnapshotNumTablesInParallel : Nat
  deriving DecidableEq

/-! ## Pure helpers -/

/-- Go's `strings.TrimSuffix`: drop `suffix` from the end of `s` when it is
present, otherwise return `s` unchanged. -/
def trimSuffix (s suffix : String) : String :=
  if suffix.data.isSuffixOf s.data then
    String.mk (s.data.take (s.data.length - suffix.data.length))
  else s

/-- Modelled from the spec: `internal.AdditionalTablesHasOverlap` is not among
the provided sources; per the spec, additional tables are skipped when
"overlapping with existing mappings (by source OR destination identifier)". -/
def AdditionalTablesHasOverlap (currentTableMappings additionalTables : List TableMapping) : Bool :=
  currentTableMappings.any fun tm => additionalTables.any fun a =>
    tm.SourceTableIdentifier == a.SourceTableIdentifier ||
      tm.DestinationTableIdentifier == a.DestinationTableIdentifier

/-- Modelled from the spec: `model.FlowSignalHandler` is not among the provided
sources; per the spec the handler collapses repeated Pause/Noop signals, so that
for any sequence of signals the resulting `ActiveSignal` is the left fold, i.e.
the last signal received. -/
def FlowSignalHandler (_activeSignal val : CDCFlowSignal) : CDCFlowSignal := val

/-- Classification of a failed SyncFlow activity result, as distinguished by
cdc_flow.go lines 762-781: a `temporal.PanicError`, an application error
(whose message may contain "(SQLSTATE 55006)"), or a non-application error. -/
inductive SyncErrKind
  | panicError
  | applicationError (contains55006 : Bool)
  | nonApplicationError (contains55006 : Bool)
  deriving DecidableEq

structure SyncErrOutcome where
  ErrorCount : Int
  LastError : Int
  sleepForMinutes : Int
  deriving DecidableEq

/-- The sync-flow error handler of cdc_flow.go lines 756-781: reset the error
count when more than 24h (1440 minutes) have elapsed since the previous error,
record the error time, and compute the backoff sleep duration in minutes. -/
def handleSyncError (errorCount lastError now : Int) (kind : SyncErrKind) : SyncErrOutcome :=
  let ec : Int := if lastError + 1440 < now then 0 else errorCount
  let sleepFor : Int :=
    match kind with
    | .panicError => 10 + min ec 3 * 15
    | .applicationError has55006 => if has55006 then 1 + min ec 9 else 5 + min ec 5 * 15
    | .nonApplicationError _ => 1 + min ec 9
  ⟨ec, now, sleepFor⟩

/-- The error-count update on flow finish, cdc_flow.go lines 864-868. -/
def finishErrorCount (finishedError : Bool) (errorCount : Int) : Int :=
  if finishedError then errorCount + 1 else 0

/-- Resync destination-name suffixing for one mapping, cdc_flow.go
lines 546-550. -/
def resyncSuffixMapping (m : TableMapping) : TableMapping :=
  if m.Engine ≠ TableEngine.CH_ENGINE_NULL then
    { m with DestinationTableIdentifier := m.DestinationTableIdentifier ++ "_resync" }
  else m

def resyncSuffixMappings (tms : List TableMapping) : List TableMapping :=
  tms.map resyncSuffixMapping

/-- One step of the post-snapshot rename pass, cdc_flow.go lines 675-690:
produce the rename option and the updated mapping. -/
def renameMappingStep (m : TableMapping) : RenameTableOption × TableMapping :=
  if m.Engine ≠ TableEngine.CH_ENGINE_NULL then
    let oldName := m.DestinationTableIdentifier
    let newName := trimSuffix oldName ("_resync")
    (⟨oldName, newName⟩, { m with DestinationTableIdentifier := newName })
  else
    (⟨m.DestinationTableIdentifier, m.DestinationTableIdentifier⟩, m)

def renameStep (tms : List TableMapping) : List RenameTableOption × List TableMapping :=
  (tms.map fun m => (renameMappingStep m).1, tms.map fun m => (renameMappingStep m).2)

/-- Go's `maps.Copy(dst, src)` on a `map[uint32]string`, as an association
list: entries of `src` overwrite entries of `dst` with the same key. -/
def mapsCopy (dst src : List (Nat × String)) : List (Nat × String) :=
  src.foldl (fun acc kv => (acc.filter fun kv2 => kv2.1 != kv.1) ++ [kv]) dst

/-- Go's `maps.Copy(dst, src)` on a `map[string]string`. -/
def mapsCopyStr (dst src : List (String × String)) : List (String × String) :=
  src.foldl (fun acc kv => (acc.filter fun kv2 => kv2.1 != kv.1) ++ [kv]) dst


/-! ## The orchestrator machine and its effect trace -/

/-- Externally visible actions of the orchestrator, in the order they are
issued. `assignStatus` marks a write to `State.CurrentFlowStatus`
(cdc_flow.go line 82 and the state literal at line 53); `catalogStatus`
marks the local activity call issued by `syncStatusToCatalog`. -/
inductive Effect
  | assignStatus (s : FlowStatus)
  | catalogStatus (s : FlowStatus)
  | catalogConfig (cfg : FlowConnectionConfigs)
  | addTablesToPublication (tables : List TableMapping)
  | removeTablesFromPublication (tables : List TableMapping)
  | removeTablesFromRawTable (tables : List TableMapping)
  | removeTablesFromCatalog (tables : List TableMapping)
  | renameTables (opts : RenameTablesInput)
  | startSetupFlow (cfg : FlowConnectionConfigs)
  | startSnapshotFlow (cfg : FlowConnectionConfigs)
  | startSyncFlow (cfg : FlowConnectionConfigs) (opts : SyncFlowOptions)
  | startChildCDCFlow (cfg : FlowConnectionConfigs)
  | syncCancelAwaited
  deriving DecidableEq

/-- How one entry of `CDCFlowWorkflow` ends: workflow cancellation, an error
return, a continue-as-new into `DropFlowWorkflow` or back into
`CDCFlowWorkflow`, or `blocked` when the environment provides no further
events while the workflow would keep waiting. -/
inductive Err
  | canceled
  | blocked
  | errMsg (s : String)
  | canDropFlow (d : Option DropFlowInput)
  | canCDCFlow (cfg : FlowConnectionConfigs) (st : CDCFlowWorkflowState)
  deriving DecidableEq

/-- The mutable data threaded through one entry of the workflow: the config
(mutated in place by the Go code), the state, the cancellation flag of the
workflow context, and the effect trace. -/
structure Machine where
  cfg : FlowConnectionConfigs
  state : CDCFlowWorkflowState
  cancelled : Bool
  trace : List Effect
  deriving DecidableEq

/-- The `(result, error)` pair returned by one entry of the workflow,
together with the trace of effects it issued. -/
structure Outcome where
  res : Option CDCFlowWorkflowState
  err : Option Err
  trace : List Effect
  deriving DecidableEq

def emit (m : Machine) (e : Effect) : Machine :=
  { m with trace := m.trace ++ [e] }

/-- `State.updateStatus` (cdc_flow.go lines 81-85): write the new status into
the state and issue the catalog status-update call. -/
def updateStatus (m : Machine) (s : FlowStatus) : Machine :=
  { m with
    state := { m.state with CurrentFlowStatus := s },
    trace := m.trace ++ [.assignStatus s, .catalogStatus s] }

/-- `updateFlowConfigWithLatestSettings` (cdc_flow.go lines 101-113). -/
def updateFlowConfigWithLatestSettings (cfg : FlowConnectionConfigs)
    (st : CDCFlowWorkflowState) : FlowConnectionConfigs :=
  { cfg with
    MaxBatchSize := st.SyncFlowOptions.BatchSize,
    IdleTimeoutSeconds := st.SyncFlowOptions.IdleTimeoutSeconds,
    TableMappings := st.SyncFlowOptions.TableMappings,
    SnapshotNumRowsPerPartition := st.SnapshotNumRowsPerPartition,
    SnapshotMaxParallelWorkers := st.SnapshotMaxParallelWorkers,
    SnapshotNumTablesInParallel := st.SnapshotNumTablesInParallel }

/-- `syncStateToConfigProtoInCatalog` (cdc_flow.go lines 118-126). -/
def syncStateToConfigProtoInCatalog (m : Machine) : FlowConnectionConfigs × Machine :=
  let cloneCfg := updateFlowConfigWithLatestSettings m.cfg m.state
  (cloneCfg, emit m (.catalogConfig cloneCfg))

/-- `uploadConfigToCatalog` (cdc_flow.go lines 128-141). -/
def uploadConfigToCatalog (m : Machine) (cfg : FlowConnectionConfigs) : Machine :=
  emit m (.catalogConfig cfg)

/-- `NewCDCFlowWorkflowState` (cdc_flow.go lines 46-67), without the trailing
`syncStatusToCatalog` call, which the caller records in the trace. -/
def NewCDCFlowWorkflowState (cfg : FlowConnectionConfigs) : CDCFlowWorkflowState :=
  { ActiveSignal := .NoopSignal,
    CurrentFlowStatus := .STATUS_SETUP,
    FlowConfigUpdate := none,
    SyncFlowOptions :=
      { BatchSize := cfg.MaxBatchSize,
        IdleTimeoutSeconds := cfg.IdleTimeoutSeconds,
        TableMappings := cfg.TableMappings,
        NumberOfSyncs := 0,
        SrcTableIdNameMapping := [] },
    DropFlowInput := none,
    LastError := 0,
    ErrorCount := 0,
    SnapshotNumRowsPerPartition := cfg.SnapshotNumRowsPerPartition,
    SnapshotMaxParallelWorkers := cfg.SnapshotMaxParallelWorkers,
    SnapshotNumTablesInParallel := cfg.SnapshotNumTablesInParallel }

/-! ## FlowStateChange handlers, one per selector site -/

/-- The pause-loop `FlowStateChange` handler (cdc_flow.go lines 462-486).
`Resync` is omitted from the Go `DropFlowInput` literal in the terminating
case; the zero value is `false`. -/
def pauseLoopStateChange (val : FlowStateChangeRequest) (m : Machine) : Machine :=
  match val.RequestedFlowState with
  | .STATUS_TERMINATING =>
    let m := { m with state := { m.state with ActiveSignal := .TerminateSignal } }
    let (dropCfg, m) := syncStateToConfigProtoInCatalog m
    { m with state := { m.state with DropFlowInput := some (
        { FlowJobName := dropCfg.FlowJobName,
          FlowConnectionConfigs := some dropCfg,
          DropFlowStats := val.DropMirrorStats,
          SkipDestinationDrop := val.SkipDestinationDrop,
          Resync := false }) } }
  | .STATUS_RESYNC =>
    let m := { m with
      state := { m.state with ActiveSignal := .ResyncSignal },
      cfg := { m.cfg with Resync := true, DoInitialSnapshot := true } }
    let (resyncCfg, m) := syncStateToConfigProtoInCatalog m
    { m with state := { m.state with DropFlowInput := some (
        { FlowJobName := resyncCfg.FlowJobName,
          FlowConnectionConfigs := some resyncCfg,
          DropFlowStats := val.DropMirrorStats,
          SkipDestinationDrop := val.SkipDestinationDrop,
          Resync := true }) } }
  | _ => m

/-- The main-loop `FlowStateChange` handler (cdc_flow.go lines 805-830),
identical to the pause-loop one except that the caller also sets `finished`. -/
def mainLoopStateChange (val : FlowStateChangeRequest) (m : Machine) : Machine :=
  match val.RequestedFlowState with
  | .STATUS_TERMINATING =>
    let m := { m with state := { m.state with ActiveSignal := .TerminateSignal } }
    let (dropCfg, m) := syncStateToConfigProtoInCatalog m
    { m with state := { m.state with DropFlowInput := some (
        { FlowJobName := dropCfg.FlowJobName,
          FlowConnectionConfigs := some dropCfg,
          DropFlowStats := val.DropMirrorStats,
          SkipDestinationDrop := val.SkipDestinationDrop,
          Resync := false }) } }
  | .STATUS_RESYNC =>
    let m := { m with
      state := { m.state with ActiveSignal := .ResyncSignal },
      cfg := { m.cfg with Resync := true, DoInitialSnapshot := true } }
    let (resyncCfg, m) := syncStateToConfigProtoInCatalog m
    { m with state := { m.state with DropFlowInput := some (
        { FlowJobName := resyncCfg.FlowJobName,
          FlowConnectionConfigs := some resyncCfg,
          DropFlowStats := val.DropMirrorStats,
          SkipDestinationDrop := val.SkipDestinationDrop,
          Resync := true }) } }
  | _ => m

/-- The setup/snapshot-phase `FlowStateChange` handler (cdc_flow.go
lines 561-590). On a nested resync the table mappings of `cfg` are restored
from `originalTableMappings` and the config proto is uploaded as-is
(`uploadConfigToCatalog`, not `syncStateToConfigProtoInCatalog`). -/
def setupStateChange (originalTableMappings : List TableMapping)
    (val : FlowStateChangeRequest) (m : Machine) : Machine :=
  match val.RequestedFlowState with
  | .STATUS_PAUSED => m
  | .STATUS_TERMINATING =>
    let m := { m with state := { m.state with ActiveSignal := .TerminateSignal } }
    let (dropCfg, m) := syncStateToConfigProtoInCatalog m
    { m with state := { m.state with DropFlowInput := some (
        { FlowJobName := dropCfg.FlowJobName,
          FlowConnectionConfigs := some dropCfg,
          DropFlowStats := val.DropMirrorStats,
          SkipDestinationDrop := val.SkipDestinationDrop,
          Resync := false }) } }
  | .STATUS_RESYNC =>
    let m := { m with
      state := { m.state with ActiveSignal := .ResyncSignal },
      cfg := { m.cfg with
        Resync := true,
        DoInitialSnapshot := true,
        TableMappings := originalTableMappings } }
    let m := uploadConfigToCatalog m m.cfg
    { m with state := { m.state with DropFlowInput := some (
        { FlowJobName := m.cfg.FlowJobName,
          FlowConnectionConfigs := some m.cfg,
          DropFlowStats := val.DropMirrorStats,
          SkipDestinationDrop := val.SkipDestinationDrop,
          Resync := true }) } }
  | _ => m

/-- The add-tables subloop `FlowStateChange` handler (cdc_flow.go
lines 254-283). In the resync case the `DropFlowInput` is created with an
empty job name and nil configs, to be filled in just before continue-as-new. -/
def addTablesStateChange (val : FlowStateChangeRequest) (m : Machine) : Machine :=
  match val.RequestedFlowState with
  | .STATUS_TERMINATING =>
    let m := { m with state := { m.state with ActiveSignal := .TerminateSignal } }
    let (dropCfg, m) := syncStateToConfigProtoInCatalog m
    { m with state := { m.state with DropFlowInput := some (
        { FlowJobName := dropCfg.FlowJobName,
          FlowConnectionConfigs := some dropCfg,
          DropFlowStats := val.DropMirrorStats,
          SkipDestinationDrop := val.SkipDestinationDrop,
          Resync := false }) } }
  | .STATUS_RESYNC =>
    let m := { m with
      state := { m.state with ActiveSignal := .ResyncSignal },
      cfg := { m.cfg with Resync := true, DoInitialSnapshot := true } }
    { m with state := { m.state with DropFlowInput := some (
        { FlowJobName := "",
          FlowConnectionConfigs := none,
          DropFlowStats := val.DropMirrorStats,
          SkipDestinationDrop := val.SkipDestinationDrop,
          Resync := true }) } }
  | .STATUS_PAUSED => m
  | _ => m

/-! ## Environments: events delivered by the selectors -/

/-- Events deliverable to the pause-loop selector (cdc_flow.go lines 457-487):
context cancellation, a `FlowSignal`, a `FlowStateChange`, or a
`CDCDynamicProperties` config update. -/
inductive PauseEvent
  | cancelEvent
  | flowSignal (val : CDCFlowSignal)
  | stateChange (val : FlowStateChangeRequest)
  | cdcProperties (upd : CDCFlowConfigUpdate)
  deriving DecidableEq

/-- Events deliverable to the add-tables selector (cdc_flow.go lines 251-306):
cancellation, a `FlowStateChange`, or completion of the child CDC flow
(`none` meaning the child failed). -/
inductive AddTablesEvent
  | cancelEvent
  | stateChange (val : FlowStateChangeRequest)
  | childDone (res : Option CDCFlowWorkflowState)
  deriving DecidableEq

/-- Environment for one `processCDCFlowConfigUpdate` call: outcome of the
`AddTablesToPublication` activity, the add-tables selector events, and the
outcomes of the three removal activities. -/
structure ProcEnv where
  addPublicationOk : Bool
  addTablesEvents : List AddTablesEvent
  removePublicationOk : Bool
  removeRawTableOk : Bool
  removeCatalogOk : Bool
  deriving DecidableEq

/-! ## Config update processing -/

/-- One `selector.Select` step of the pause loop. -/
def processPauseEvent (e : PauseEvent) (m : Machine) : Machine :=
  match e with
  | .cancelEvent => { m with cancelled := true }
  | .flowSignal val =>
    { m with state := { m.state with ActiveSignal := FlowSignalHandler m.state.ActiveSignal val } }
  | .stateChange val => pauseLoopStateChange val m
  | .cdcProperties upd => { m with state := { m.state with FlowConfigUpdate := some upd } }

/-- The blocking inner loop of the pause loop (cdc_flow.go lines 493-496):
select events while the signal is Pause, no config update is pending and the
context is alive. The boolean result is true when the environment ran out of
events while the loop would still be waiting. -/
def pauseInnerLoop (evs : List PauseEvent) (m : Machine) : Machine × Bool :=
  if m.state.ActiveSignal = .PauseSignal ∧ m.state.FlowConfigUpdate = none ∧ m.cancelled = false then
    match evs with
    | [] => (m, true)
    | e :: rest => pauseInnerLoop rest (processPauseEvent e m)
  else (m, false)

/-- Result of the add-tables wait loop (cdc_flow.go lines 308-328). -/
inductive AddLoopResult
  | completed (m : Machine) (res : CDCFlowWorkflowState)
  | failed (m : Machine) (e : Err)
  deriving DecidableEq

/-- The add-tables wait loop (cdc_flow.go lines 308-328): select until the
child CDC flow produced a result, honoring Terminate/Resync signals,
cancellation and child failure after every select. -/
def addTablesLoop (u : CDCFlowConfigUpdate) (evs : List AddTablesEvent)
    (m : Machine) (res : Option CDCFlowWorkflowState) (flowErr : Bool) : AddLoopResult :=
  match res with
  | some r => .completed m r
  | none =>
    match evs with
    | [] => .failed m .blocked
    | e :: rest =>
      let step : Machine × Option CDCFlowWorkflowState × Bool :=
        match e with
        | .cancelEvent => ({ m with cancelled := true }, none, flowErr)
        | .stateChange val => (addTablesStateChange val m, none, flowErr)
        | .childDone r? =>
          match r? with
          | some st => (m, some st, flowErr)
          | none => (m, none, true)
      let m := step.1
      let res := step.2.1
      let flowErr := step.2.2
      if m.state.ActiveSignal = .TerminateSignal ∨ m.state.ActiveSignal = .ResyncSignal then
        if m.state.ActiveSignal = .ResyncSignal then
          let m := { m with state := { m.state with SyncFlowOptions :=
            { m.state.SyncFlowOptions with
              TableMappings := m.state.SyncFlowOptions.TableMappings ++ u.AdditionalTables } } }
          let (resyncCfg, m) := syncStateToConfigProtoInCatalog m
          let filledDrop := m.state.DropFlowInput.map fun d =>
            { d with FlowJobName := resyncCfg.FlowJobName,
                     FlowConnectionConfigs := some resyncCfg }
          let m := { m with state := { m.state with DropFlowInput := filledDrop } }
          .failed m (.canDropFlow m.state.DropFlowInput)
        else
          .failed m (.canDropFlow m.state.DropFlowInput)
      else if m.cancelled then .failed m .canceled
      else if flowErr then
        .failed m (.errMsg ("failed to execute child CDCFlow for additional tables"))
      else addTablesLoop u rest m res flowErr

/-- `processTableAdditions` (cdc_flow.go lines 207-335). The child CDC flow's
returned `SrcTableIdNameMapping` is merged and the additional tables are
appended to the live table mappings on success. -/
def processTableAdditions (penv : ProcEnv) (m : Machine) : Machine × Option Err :=
  match m.state.FlowConfigUpdate with
  | none => (m, none)
  | some u =>
    if u.AdditionalTables = [] then
      let (_, m) := syncStateToConfigProtoInCatalog m
      (m, none)
    else if AdditionalTablesHasOverlap m.state.SyncFlowOptions.TableMappings u.AdditionalTables then
      let (_, m) := syncStateToConfigProtoInCatalog m
      (m, none)
    else
      let m := updateStatus m .STATUS_SNAPSHOT
      let m := emit m (.addTablesToPublication u.AdditionalTables)
      if !penv.addPublicationOk then
        (m, some (.errMsg ("failed to alter publication for additional tables")))
      else
        let additionalTablesCfg := { m.cfg with
          DoInitialSnapshot := true,
          InitialSnapshotOnly := true,
          TableMappings := u.AdditionalTables,
          Resync := false,
          SnapshotNumRowsPerPartition := m.state.SnapshotNumRowsPerPartition,
          SnapshotMaxParallelWorkers := m.state.SnapshotMaxParallelWorkers,
          SnapshotNumTablesInParallel := m.state.SnapshotNumTablesInParallel }
        let m := emit m (.startChildCDCFlow additionalTablesCfg)
        match addTablesLoop u penv.addTablesEvents m none false with
        | .failed m e => (m, some e)
        | .completed m r =>
          let m := { m with state := { m.state with SyncFlowOptions :=
            { m.state.SyncFlowOptions with
              SrcTableIdNameMapping :=
                mapsCopy m.state.SyncFlowOptions.SrcTableIdNameMapping
                  r.SyncFlowOptions.SrcTableIdNameMapping,
              TableMappings := m.state.SyncFlowOptions.TableMappings ++ u.AdditionalTables } } }
          (m, none)

/-- `processTableRemovals` (cdc_flow.go lines 337-397): the three removal
activities in order, then deletion of the removed tables from
`SrcTableIdNameMapping` (by value) and `TableMappings` (by source id). -/
def processTableRemovals (penv : ProcEnv) (m : Machine) : Machine × Option Err :=
  match m.state.FlowConfigUpdate with
  | none => (m, none)
  | some u =>
    let m := emit m (.removeTablesFromPublication u.RemovedTables)
    if !penv.removePublicationOk then
      (m, some (.errMsg ("failed to alter publication for removed tables")))
    else
      let m := emit m (.removeTablesFromRawTable u.RemovedTables)
      if !penv.removeRawTableOk then
        (m, some (.errMsg ("failed to clean up raw table for removed tables")))
      else
        let m := emit m (.removeTablesFromCatalog u.RemovedTables)
        if !penv.removeCatalogOk then
          (m, some (.errMsg ("failed to remove tables from catalog")))
        else
          let removedSources := u.RemovedTables.map fun tm => tm.SourceTableIdentifier
          let m := { m with state := { m.state with SyncFlowOptions :=
            { m.state.SyncFlowOptions with
              SrcTableIdNameMapping := m.state.SyncFlowOptions.SrcTableIdNameMapping.filter
                fun kv => !(removedSources.contains kv.2),
              TableMappings := m.state.SyncFlowOptions.TableMappings.filter
                fun tm => !(removedSources.contains tm.SourceTableIdentifier) } } }
          (m, none)

/-- The scalar-override portion of `processCDCFlowConfigUpdate` (cdc_flow.go
lines 152-178): batch size, idle timeout, number of syncs, env merge and the
snapshot parallelism knobs. No catalog call is issued here. -/
def applyScalarUpdates (u : CDCFlowConfigUpdate) (m : Machine) : Machine :=
  let so := m.state.SyncFlowOptions
  let so := if u.BatchSize > 0 then { so with BatchSize := u.BatchSize } else so
  let so := if u.IdleTimeout > 0 then { so with IdleTimeoutSeconds := u.IdleTimeout } else so
  let so :=
    if u.NumberOfSyncs > 0 then { so with NumberOfSyncs := u.NumberOfSyncs }
    else if u.NumberOfSyncs < 0 then { so with NumberOfSyncs := 0 }
    else so
  let m := { m with state := { m.state with SyncFlowOptions := so } }
  let m :=
    match u.UpdatedEnv with
    | some env2 => { m with cfg := { m.cfg with Env := mapsCopyStr m.cfg.Env env2 } }
    | none => m
  let st := m.state
  let st :=
    if u.SnapshotNumRowsPerPartition > 0 then
      { st with SnapshotNumRowsPerPartition := u.SnapshotNumRowsPerPartition }
    else st
  let st :=
    if u.SnapshotMaxParallelWorkers > 0 then
      { st with SnapshotMaxParallelWorkers := u.SnapshotMaxParallelWorkers }
    else st
  let st :=
    if u.SnapshotNumTablesInParallel > 0 then
      { st with SnapshotNumTablesInParallel := u.SnapshotNumTablesInParallel }
    else st
  { m with state := st }

/-- `processCDCFlowConfigUpdate` (cdc_flow.go lines 143-205): apply the scalar
overrides, then table additions and removals, then upload the config. -/
def processCDCFlowConfigUpdate (penv : ProcEnv) (m : Machine) : Machine × Option Err :=
  match m.state.FlowConfigUpdate with
  | none => (m, none)
  | some u =>
    let m := applyScalarUpdates u m
    let tablesAreAdded := decide (u.AdditionalTables ≠ [])
    let tablesAreRemoved := decide (u.RemovedTables ≠ [])
    if !tablesAreAdded && !tablesAreRemoved then
      let (_, m) := syncStateToConfigProtoInCatalog m
      (m, none)
    else
      let afterAdd : Machine × Option Err :=
        if tablesAreAdded then processTableAdditions penv m else (m, none)
      match afterAdd with
      | (m, some e) => (m, some e)
      | (m, none) =>
        let afterRemove : Machine × Option Err :=
          if tablesAreRemoved then processTableRemovals penv m else (m, none)
        match afterRemove with
        | (m, some e) => (m, some e)
        | (m, none) =>
          let (_, m) := syncStateToConfigProtoInCatalog m
          (m, none)

/-! ## Pause loop -/

/-- The pause loop (cdc_flow.go lines 456-518). After the blocking inner loop
exits, cancellation, Terminate/Resync and a pending config update are checked
in that order; once the signal is no longer Pause the status goes back to
Running and the workflow continues-as-new into itself. -/
def pauseLoopRun (pauseEvents : List PauseEvent) (penv : ProcEnv) (m : Machine) : Outcome :=
  let m := updateStatus m .STATUS_PAUSED
  let inner := pauseInnerLoop pauseEvents m
  let m := inner.1
  if inner.2 then ⟨none, some .blocked, m.trace⟩
  else if m.cancelled then ⟨some m.state, some .canceled, m.trace⟩
  else if m.state.ActiveSignal = .TerminateSignal ∨ m.state.ActiveSignal = .ResyncSignal then
    ⟨some m.state, some (.canDropFlow m.state.DropFlowInput), m.trace⟩
  else
    let afterUpd : Machine × Option Err :=
      if m.state.FlowConfigUpdate.isSome then
        match processCDCFlowConfigUpdate penv m with
        | (m, some e) => (m, some e)
        | (m, none) =>
          ({ m with state := { m.state with FlowConfigUpdate := none, ActiveSignal := .NoopSignal } },
           none)
      else (m, none)
    match afterUpd with
    | (m, some e) => ⟨some m.state, some e, m.trace⟩
    | (m, none) =>
      let m := updateStatus m .STATUS_RUNNING
      ⟨some m.state, some (.canCDCFlow m.cfg m.state), m.trace⟩

/-! ## Setup/snapshot phase -/

/-- Events deliverable to the setup/snapshot selector while one of its wait
loops is running: cancellation, a `FlowStateChange`, or completion of the
awaited future (`futureOk` carrying the `SrcTableIdNameMapping` payload for
the setup-flow wait; the payload is unused by the other waits). -/
inductive SetupPhaseEvent
  | cancelEvent
  | stateChange (val : FlowStateChangeRequest)
  | futureOk (srcMap : List (Nat × String))
  | futureErr
  deriving DecidableEq

inductive SetupLoopResult
  | completed (m : Machine) (payload : List (Nat × String))
  | exited (o : Outcome)
  deriving DecidableEq

/-- One wait loop over the setup/snapshot selector (cdc_flow.go lines 610-621,
654-665 and 711-722): after each select, Terminate/Resync, cancellation and a
future error are checked in that order. -/
def setupWaitLoop (originalTableMappings : List TableMapping) (errText : String)
    (evs : List SetupPhaseEvent) (m : Machine) : SetupLoopResult :=
  match evs with
  | [] => .exited ⟨none, some .blocked, m.trace⟩
  | e :: rest =>
    let step : Machine × Option (List (Nat × String)) × Bool :=
      match e with
      | .cancelEvent => ({ m with cancelled := true }, none, false)
      | .stateChange val => (setupStateChange originalTableMappings val m, none, false)
      | .futureOk p => (m, some p, false)
      | .futureErr => (m, none, true)
    let m := step.1
    let done := step.2.1
    let failed := step.2.2
    if m.state.ActiveSignal = .TerminateSignal ∨ m.state.ActiveSignal = .ResyncSignal then
      .exited ⟨some m.state, some (.canDropFlow m.state.DropFlowInput), m.trace⟩
    else if m.cancelled then .exited ⟨none, some .canceled, m.trace⟩
    else if failed then .exited ⟨some m.state, some (.errMsg errText), m.trace⟩
    else
      match done with
      | some p => .completed m p
      | none => setupWaitLoop originalTableMappings errText rest m

/-- Environment for the setup/snapshot phase: the events delivered while
waiting on the setup flow, the snapshot flow and the rename activity. -/
structure SetupEnv where
  setupEvents : List SetupPhaseEvent
  snapshotEvents : List SetupPhaseEvent
  renameEvents : List SetupPhaseEvent
  deriving DecidableEq

/-- The rename pass after a resync snapshot (cdc_flow.go lines 667-723). -/
def setupRenamePart (env : SetupEnv) (originalTableMappings : List TableMapping)
    (m : Machine) : Sum Outcome Machine :=
  if m.cfg.Resync then
    let stepped := renameStep m.state.SyncFlowOptions.TableMappings
    let renameOpts : RenameTablesInput :=
      { FlowJobName := m.cfg.FlowJobName,
        PeerName := m.cfg.DestinationName,
        SyncedAtColName := m.cfg.SyncedAtColName,
        SoftDeleteColName := m.cfg.SoftDeleteColName,
        RenameTableOptions := stepped.1 }
    let m := { m with state := { m.state with SyncFlowOptions :=
      { m.state.SyncFlowOptions with TableMappings := stepped.2 } } }
    let m := emit m (.renameTables renameOpts)
    match setupWaitLoop originalTableMappings ("failed to execute rename tables activity")
        env.renameEvents m with
    | .exited o => .inl o
    | .completed m _ => .inr m
  else .inr m

/-- The setup/snapshot phase after the resync-suffix step (cdc_flow.go
lines 555-733): run the setup flow, store the source-table id mapping, run
the snapshot flow, run the rename pass when resyncing, and finish with
status Completed or Running before continue-as-new. -/
def setupPhaseCore (env : SetupEnv) (originalTableMappings : List TableMapping)
    (m : Machine) : Outcome :=
  let m := emit m (.startSetupFlow m.cfg)
  match setupWaitLoop originalTableMappings ("failed to execute setup workflow")
      env.setupEvents m with
  | .exited o => o
  | .completed m srcMap =>
    let m := { m with state := { m.state with SyncFlowOptions :=
      { m.state.SyncFlowOptions with SrcTableIdNameMapping := srcMap } } }
    let m := updateStatus m .STATUS_SNAPSHOT
    let m := emit m (.startSnapshotFlow m.cfg)
    match setupWaitLoop originalTableMappings ("failed to execute snapshot workflow")
        env.snapshotEvents m with
    | .exited o => o
    | .completed m _ =>
      match setupRenamePart env originalTableMappings m with
      | .inl o => o
      | .inr m =>
        let m :=
          if m.cfg.InitialSnapshotOnly then updateStatus m .STATUS_COMPLETED
          else updateStatus m .STATUS_RUNNING
        ⟨some m.state, some (.canCDCFlow m.cfg m.state), m.trace⟩

/-- The setup/snapshot phase (cdc_flow.go lines 538-734): save the original
table mappings and apply the resync suffix (lines 539-553), then run the
core phase. -/
def setupPhase (env : SetupEnv) (m : Machine) : Outcome :=
  let originalTableMappings := m.cfg.TableMappings
  let m :=
    if m.cfg.Resync then
      let suffixed := resyncSuffixMappings m.state.SyncFlowOptions.TableMappings
      { m with
        state := { m.state with SyncFlowOptions :=
          { m.state.SyncFlowOptions with TableMappings := suffixed } },
        cfg := { m.cfg with TableMappings := suffixed } }
    else m
  setupPhaseCore env originalTableMappings m

/-! ## Main loop -/

/-- Completion of the SyncFlow activity: clean, with `workflow.ErrCanceled`,
or with a classified error observed at workflow time `now`. -/
inductive SyncResult
  | ok
  | canceledErr
  | failed (kind : SyncErrKind) (now : Int)
  deriving DecidableEq

/-- Events deliverable to the main-loop selector (cdc_flow.go lines 746-832). -/
inductive MainEvent
  | cancelEvent
  | syncDone (res : SyncResult)
  | sleepFired
  | flowSignal (val : CDCFlowSignal)
  | stateChange (val : FlowStateChangeRequest)
  | cdcProperties (upd : CDCFlowConfigUpdate)
  deriving DecidableEq

/-- The main-loop locals of cdc_flow.go: `finished`, `finishedError`, whether
the sync future's callback has run, and the sleep future registered after a
sync error (carrying its duration in minutes). -/
structure MainM where
  m : Machine
  finished : Bool
  finishedError : Bool
  syncHandled : Bool
  registeredSleepMinutes : Option Int
  deriving DecidableEq

/-- One `selector.Select` step of the main loop (the callbacks registered in
cdc_flow.go lines 746-832). The sync-future callback ignores its error when
the flow is already finished or the error is `workflow.ErrCanceled`; a clean
completion (and a fired error-sleep) sets Pause when `NumberOfSyncs > 0`. -/
def processMainEvent (e : MainEvent) (s : MainM) : MainM :=
  match e with
  | .cancelEvent => { s with m := { s.m with cancelled := true }, finished := true }
  | .syncDone res =>
    if s.syncHandled then s
    else
      let s := { s with syncHandled := true }
      match res with
      | .ok =>
        let s := { s with finished := true }
        if s.m.state.SyncFlowOptions.NumberOfSyncs > 0 then
          { s with m := { s.m with state := { s.m.state with ActiveSignal := .PauseSignal } } }
        else s
      | .canceledErr => s
      | .failed kind now =>
        if s.finished then s
        else
          let o := handleSyncError s.m.state.ErrorCount s.m.state.LastError now kind
          { s with
            m := { s.m with state :=
              { s.m.state with ErrorCount := o.ErrorCount, LastError := o.LastError } },
            registeredSleepMinutes := some o.sleepForMinutes }
  | .sleepFired =>
    if s.registeredSleepMinutes.isSome then
      let s := { s with finished := true, finishedError := true, registeredSleepMinutes := none }
      if s.m.state.SyncFlowOptions.NumberOfSyncs > 0 then
        { s with m := { s.m with state := { s.m.state with ActiveSignal := .PauseSignal } } }
      else s
    else s
  | .flowSignal val =>
    let s := { s with m := { s.m with state :=
      { s.m.state with ActiveSignal := FlowSignalHandler s.m.state.ActiveSignal val } } }
    if s.m.state.ActiveSignal = .PauseSignal then { s with finished := true } else s
  | .stateChange val => { s with finished := true, m := mainLoopStateChange val s.m }
  | .cdcProperties upd =>
    { s with m := { s.m with state := { s.m.state with FlowConfigUpdate := some upd } } }

/-- Process a batch of selector events, stopping early once the context is
cancelled (the drain loops of cdc_flow.go lines 837-839 and 854-856 run only
while `ctx.Err() == nil`). -/
def processMainEvents (evs : List MainEvent) (s : MainM) : MainM :=
  match evs with
  | [] => s
  | e :: rest => if s.m.cancelled then s else processMainEvents rest (processMainEvent e s)

/-- One iteration of the outer main loop: the events selected and drained
before the checks, whether `ShouldWorkflowContinueAsNew` reports true this
iteration, and the events drained after the sync activity is cancelled and
awaited in the `finished` branch. -/
structure MainRound where
  events : List MainEvent
  shouldContinueAsNew : Bool
  drainEvents : List MainEvent
  deriving DecidableEq

/-- The outer main loop (cdc_flow.go lines 835-875). Cancellation observed
before `finished` returns the error with no status write; cancellation
observed while draining after the sync activity was cancelled and awaited
writes status Terminated first. -/
def mainLoopRounds (rounds : List MainRound) (s : MainM) : Outcome :=
  match rounds with
  | [] => ⟨none, some .blocked, s.m.trace⟩
  | round :: rest =>
    let s := processMainEvents round.events s
    if s.m.cancelled then ⟨some s.m.state, some .canceled, s.m.trace⟩
    else
      let s : MainM := { s with finished := s.finished || round.shouldContinueAsNew }
      if s.finished then
        let s := { s with m := emit s.m .syncCancelAwaited, syncHandled := true }
        let s := processMainEvents round.drainEvents s
        if s.m.cancelled then
          let m := updateStatus s.m .STATUS_TERMINATED
          ⟨none, some .canceled, m.trace⟩
        else
          let m : Machine := { s.m with state := { s.m.state with
            ErrorCount := finishErrorCount s.finishedError s.m.state.ErrorCount } }
          if m.state.ActiveSignal = .TerminateSignal ∨ m.state.ActiveSignal = .ResyncSignal then
            ⟨some m.state, some (.canDropFlow m.state.DropFlowInput), m.trace⟩
          else ⟨some m.state, some (.canCDCFlow m.cfg m.state), m.trace⟩
      else mainLoopRounds rest s

/-- Main-loop entry (cdc_flow.go lines 736-834): start the SyncFlow activity,
set status Running, then run the outer loop. -/
def mainLoop (rounds : List MainRound) (m : Machine) : Outcome :=
  let m := emit m (.startSyncFlow m.cfg m.state.SyncFlowOptions)
  let m := updateStatus m .STATUS_RUNNING
  mainLoopRounds rounds ⟨m, false, false, false, none⟩

/-! ## Top-level workflow -/

/-- The full environment for one entry of `CDCFlowWorkflow`. -/
structure Env where
  metadataObtainable : Bool
  pauseEvents : List PauseEvent
  pauseProcEnv : ProcEnv
  setupEnv : SetupEnv
  mainRounds : List MainRound
  deriving DecidableEq

/-- `CDCFlowWorkflow` (cdc_flow.go lines 423-876): nil-config check, state
creation, Completed short-circuit, then dispatch to the pause loop, the
setup/snapshot phase, or the main loop. -/
def CDCFlowWorkflow (env : Env) (cfg? : Option FlowConnectionConfigs)
    (state? : Option CDCFlowWorkflowState) : Outcome :=
  match cfg? with
  | none => ⟨none, some (.errMsg ("invalid connection configs")), []⟩
  | some cfg =>
    let created :=
      match state? with
      | some st => (st, ([] : List Effect))
      | none =>
        (NewCDCFlowWorkflowState cfg,
         [Effect.assignStatus .STATUS_SETUP, Effect.catalogStatus .STATUS_SETUP])
    let state := created.1
    let trace0 := created.2
    if state.CurrentFlowStatus = .STATUS_COMPLETED then ⟨some state, none, trace0⟩
    else
      let m : Machine := ⟨cfg, state, false, trace0⟩
      if state.ActiveSignal = .PauseSignal then
        pauseLoopRun env.pauseEvents env.pauseProcEnv m
      else if !env.metadataObtainable then
        ⟨some state, some (.errMsg ("failed to get flow metadata context")), trace0⟩
      else if state.CurrentFlowStatus ≠ .STATUS_RUNNING then
        setupPhase env.setupEnv m
      else
        mainLoop env.mainRounds m

/-! ## Trace invariants -/

/-- The statuses assigned to `CurrentFlowStatus` during a trace. -/
def assignedStatuses : List Effect → List FlowStatus
  | [] => []
  | .assignStatus s :: t => s :: assignedStatuses t
  | _ :: t => assignedStatuses t

/-- The statuses sent to the catalog during a trace. -/
def catalogStatuses : List Effect → List FlowStatus
  | [] => []
  | .catalogStatus s :: t => s :: catalogStatuses t
  | _ :: t => catalogStatuses t

/-- Every status assignment in the trace is mirrored by a catalog
status-update call with the same status, in the same order. -/
def Mirrored (t : List Effect) : Prop := assignedStatuses t = catalogStatuses t

/-- A trace fragment that is mirrored and contains neither a Terminated
status-update nor the sync-cancel await marker. -/
def Benign (t : List Effect) : Prop :=
  Mirrored t ∧ Effect.catalogStatus .STATUS_TERMINATED ∉ t ∧ Effect.syncCancelAwaited ∉ t

/-- Effects that carry no status information at all. -/
def benignEffect : Effect → Bool
  | .assignStatus _ => false
  | .catalogStatus _ => false
  | .syncCancelAwaited => false
  | _ => true

theorem assignedStatuses_append (s t : List Effect) :
    assignedStatuses (s ++ t) = assignedStatuses s ++ assignedStatuses t := by
  induction s with
  | nil => rfl
  | cons e rest ih => cases e <;> simp [assignedStatuses, ih]

theorem catalogStatuses_append (s t : List Effect) :
    catalogStatuses (s ++ t) = catalogStatuses s ++ catalogStatuses t := by
  induction s with
  | nil => rfl
  | cons e rest ih => cases e <;> simp [catalogStatuses, ih]

theorem Benign_nil : Benign [] := ⟨rfl, by simp, by simp⟩

theorem Benign_append {t1 t2 : List Effect} (h1 : Benign t1) (h2 : Benign t2) :
    Benign (t1 ++ t2) := by
  obtain ⟨m1, a1, b1⟩ := h1
  obtain ⟨m2, a2, b2⟩ := h2
  refine ⟨?_, ?_, ?_⟩
  · simp only [Mirrored] at m1 m2 ⊢
    rw [assignedStatuses_append, catalogStatuses_append, m1, m2]
  · simp [a1, a2]
  · simp [b1, b2]

theorem Benign_single (e : Effect) (he : benignEffect e = true) : Benign [e] := by
  cases e <;> simp_all [Benign, Mirrored, assignedStatuses, catalogStatuses, benignEffect]

theorem Benign_statusPair (s : FlowStatus) (hs : s ≠ .STATUS_TERMINATED) :
    Benign [.assignStatus s, .catalogStatus s] := by
  refine ⟨rfl, ?_, ?_⟩ <;> simp [hs, Ne.symm hs]

@[simp] theorem emit_trace (m : Machine) (e : Effect) : (emit m e).trace = m.trace ++ [e] := rfl

@[simp] theorem updateStatus_trace (m : Machine) (s : FlowStatus) :
    (updateStatus m s).trace = m.trace ++ [.assignStatus s, .catalogStatus s] := rfl

@[simp] theorem syncStateToConfigProtoInCatalog_trace (m : Machine) :
    (syncStateToConfigProtoInCatalog m).2.trace
      = m.trace ++ [.catalogConfig (updateFlowConfigWithLatestSettings m.cfg m.state)] := rfl

@[simp] theorem uploadConfigToCatalog_trace (m : Machine) (cfg : FlowConnectionConfigs) :
    (uploadConfigToCatalog m cfg).trace = m.trace ++ [.catalogConfig cfg] := rfl


/-! ## Benign-trace lemmas: every function outside the main loop extends the
trace only by mirrored status pairs and non-status effects -/

theorem pauseLoopStateChange_delta (val : FlowStateChangeRequest) (m : Machine) :
    ∃ δ, (pauseLoopStateChange val m).trace = m.trace ++ δ ∧ Benign δ := by
  unfold pauseLoopStateChange
  cases hval : val.RequestedFlowState
  case STATUS_TERMINATING => exact ⟨_, rfl, Benign_single _ rfl⟩
  case STATUS_RESYNC => exact ⟨_, rfl, Benign_single _ rfl⟩
  all_goals exact ⟨[], by simp, Benign_nil⟩

theorem mainLoopStateChange_delta (val : FlowStateChangeRequest) (m : Machine) :
    ∃ δ, (mainLoopStateChange val m).trace = m.trace ++ δ ∧ Benign δ := by
  unfold mainLoopStateChange
  cases hval : val.RequestedFlowState
  case STATUS_TERMINATING => exact ⟨_, rfl, Benign_single _ rfl⟩
  case STATUS_RESYNC => exact ⟨_, rfl, Benign_single _ rfl⟩
  all_goals exact ⟨[], by simp, Benign_nil⟩

theorem setupStateChange_delta (original : List TableMapping) (val : FlowStateChangeRequest)
    (m : Machine) :
    ∃ δ, (setupStateChange original val m).trace = m.trace ++ δ ∧ Benign δ := by
  unfold setupStateChange
  cases hval : val.RequestedFlowState
  case STATUS_TERMINATING => exact ⟨_, rfl, Benign_single _ rfl⟩
  case STATUS_RESYNC => exact ⟨_, rfl, Benign_single _ rfl⟩
  all_goals exact ⟨[], by simp, Benign_nil⟩

theorem addTablesStateChange_delta (val : FlowStateChangeRequest) (m : Machine) :
    ∃ δ, (addTablesStateChange val m).trace = m.trace ++ δ ∧ Benign δ := by
  unfold addTablesStateChange
  cases hval : val.RequestedFlowState
  case STATUS_TERMINATING => exact ⟨_, rfl, Benign_single _ rfl⟩
  all_goals exact ⟨[], by simp, Benign_nil⟩

theorem processPauseEvent_delta (e : PauseEvent) (m : Machine) :
    ∃ δ, (processPauseEvent e m).trace = m.trace ++ δ ∧ Benign δ := by
  cases e with
  | stateChange val => exact pauseLoopStateChange_delta val m
  | cancelEvent => exact ⟨[], by simp [processPauseEvent], Benign_nil⟩
  | flowSignal val => exact ⟨[], by simp [processPauseEvent], Benign_nil⟩
  | cdcProperties upd => exact ⟨[], by simp [processPauseEvent], Benign_nil⟩

theorem pauseInnerLoop_delta (evs : List PauseEvent) : ∀ m : Machine,
    ∃ δ, (pauseInnerLoop evs m).1.trace = m.trace ++ δ ∧ Benign δ := by
  induction evs with
  | nil =>
    intro m
    unfold pauseInnerLoop
    split
    · exact ⟨[], by simp, Benign_nil⟩
    · exact ⟨[], by simp, Benign_nil⟩
  | cons e rest ih =>
    intro m
    unfold pauseInnerLoop
    split
    · obtain ⟨δ1, h1, b1⟩ := processPauseEvent_delta e m
      obtain ⟨δ2, h2, b2⟩ := ih (processPauseEvent e m)
      exact ⟨δ1 ++ δ2, by rw [h2, h1, List.append_assoc], Benign_append b1 b2⟩
    · exact ⟨[], by simp, Benign_nil⟩
def AddLoopResult.machine : AddLoopResult → Machine
  | .completed m _ => m
  | .failed m _ => m

theorem Benign_catalogConfig (c : FlowConnectionConfigs) : Benign [.catalogConfig c] :=
  Benign_single _ rfl

theorem delta_extend {t0 t : List Effect} (δ1 : List Effect) (h : t = t0 ++ δ1)
    (b : Benign δ1) (δ2 : List Effect) (b2 : Benign δ2) :
    ∃ δ, t ++ δ2 = t0 ++ δ ∧ Benign δ :=
  ⟨δ1 ++ δ2, by rw [h, List.append_assoc], Benign_append b b2⟩

theorem addTablesLoop_delta (u : CDCFlowConfigUpdate) (evs : List AddTablesEvent) :
    ∀ (m : Machine) (res : Option CDCFlowWorkflowState) (flowErr : Bool),
    ∃ δ, (addTablesLoop u evs m res flowErr).machine.trace = m.trace ++ δ ∧ Benign δ := by
  induction evs with
  | nil =>
    intro m res flowErr
    cases res <;> exact ⟨[], by simp [addTablesLoop, AddLoopResult.machine], Benign_nil⟩
  | cons e rest ih =>
    intro m res flowErr
    cases res with
    | some r => exact ⟨[], by simp [addTablesLoop, AddLoopResult.machine], Benign_nil⟩
    | none =>
      unfold addTablesLoop
      cases e with
      | cancelEvent =>
        simp only []
        split
        · split
          · refine ⟨_, rfl, ?_⟩
            exact Benign_single _ rfl
          · exact ⟨[], by simp [AddLoopResult.machine], Benign_nil⟩
        · split
          · exact ⟨[], by simp [AddLoopResult.machine], Benign_nil⟩
          · split
            · exact ⟨[], by simp [AddLoopResult.machine], Benign_nil⟩
            · exact ih _ none flowErr
      | stateChange val =>
        obtain ⟨δ1, h1, b1⟩ := addTablesStateChange_delta val m
        simp only []
        split
        · split
          · exact delta_extend δ1 h1 b1 _ (Benign_catalogConfig _)
          · exact ⟨δ1, by simp [AddLoopResult.machine, h1], b1⟩
        · split
          · exact ⟨δ1, by simp [AddLoopResult.machine, h1], b1⟩
          · split
            · exact ⟨δ1, by simp [AddLoopResult.machine, h1], b1⟩
            · obtain ⟨δ2, h2, b2⟩ := ih (addTablesStateChange val m) none flowErr
              exact ⟨δ1 ++ δ2, by rw [h2, h1, List.append_assoc], Benign_append b1 b2⟩
      | childDone r? =>
        cases r? with
        | some st =>
          simp only []
          split
          · split
            · refine ⟨_, rfl, ?_⟩
              exact Benign_single _ rfl
            · exact ⟨[], by simp [AddLoopResult.machine], Benign_nil⟩
          · split
            · exact ⟨[], by simp [AddLoopResult.machine], Benign_nil⟩
            · split
              · exact ⟨[], by simp [AddLoopResult.machine], Benign_nil⟩
              · exact ⟨[], by simp [addTablesLoop, AddLoopResult.machine], Benign_nil⟩
        | none =>
          simp only []
          split
          · split
            · refine ⟨_, rfl, ?_⟩
              exact Benign_single _ rfl
            · exact ⟨[], by simp [AddLoopResult.machine], Benign_nil⟩
          · split
            · exact ⟨[], by simp [AddLoopResult.machine], Benign_nil⟩
            · split
              · exact ⟨[], by simp [AddLoopResult.machine], Benign_nil⟩
              · exact ih _ none true
theorem delta_trans {a b c : List Effect} (h1 : ∃ δ, b = a ++ δ ∧ Benign δ)
    (h2 : ∃ δ, c = b ++ δ ∧ Benign δ) : ∃ δ, c = a ++ δ ∧ Benign δ := by
  obtain ⟨δ1, e1, b1⟩ := h1
  obtain ⟨δ2, e2, b2⟩ := h2
  exact ⟨δ1 ++ δ2, by rw [e2, e1, List.append_assoc], Benign_append b1 b2⟩

theorem delta_statusPair (t : List Effect) (s : FlowStatus) (hs : s ≠ .STATUS_TERMINATED) :
    ∃ δ, t ++ [Effect.assignStatus s, Effect.catalogStatus s] = t ++ δ ∧ Benign δ :=
  ⟨_, rfl, Benign_statusPair s hs⟩

theorem delta_single (t : List Effect) (e : Effect) (he : benignEffect e = true) :
    ∃ δ, t ++ [e] = t ++ δ ∧ Benign δ :=
  ⟨_, rfl, Benign_single e he⟩

theorem processTableAdditions_delta (penv : ProcEnv) (m : Machine) :
    ∃ δ, (processTableAdditions penv m).1.trace = m.trace ++ δ ∧ Benign δ := by
  unfold processTableAdditions
  split
  · exact ⟨[], by simp, Benign_nil⟩
  · next u heq =>
    split
    · exact ⟨_, rfl, Benign_catalogConfig _⟩
    · split
      · exact ⟨_, rfl, Benign_catalogConfig _⟩
      · split
        · exact delta_trans (delta_statusPair m.trace .STATUS_SNAPSHOT (by decide))
            (delta_single _ (.addTablesToPublication u.AdditionalTables) rfl)
        · dsimp only
          split
          case _ m' e heq2 =>
            have h3 := congrArg AddLoopResult.machine heq2
            simp only [AddLoopResult.machine] at h3
            rw [← h3]
            exact delta_trans (delta_trans (delta_trans
              (delta_statusPair m.trace .STATUS_SNAPSHOT (by decide))
              (delta_single _ (.addTablesToPublication u.AdditionalTables) rfl))
              (delta_single _ _ (by rfl))) (addTablesLoop_delta u penv.addTablesEvents _ none false)
          case _ m' r heq2 =>
            have h3 := congrArg AddLoopResult.machine heq2
            simp only [AddLoopResult.machine] at h3
            rw [← h3]
            exact delta_trans (delta_trans (delta_trans
              (delta_statusPair m.trace .STATUS_SNAPSHOT (by decide))
              (delta_single _ (.addTablesToPublication u.AdditionalTables) rfl))
              (delta_single _ _ (by rfl))) (addTablesLoop_delta u penv.addTablesEvents _ none false)

theorem processTableRemovals_delta (penv : ProcEnv) (m : Machine) :
    ∃ δ, (processTableRemovals penv m).1.trace = m.trace ++ δ ∧ Benign δ := by
  unfold processTableRemovals
  split
  · exact ⟨[], by simp, Benign_nil⟩
  · next u heq =>
    split
    · exact delta_single _ _ (by rfl)
    · split
      · exact delta_trans (delta_single _ _ (by rfl)) (delta_single _ _ (by rfl))
      · split
        · exact delta_trans (delta_trans (delta_single _ _ (by rfl))
            (delta_single _ _ (by rfl))) (delta_single _ _ (by rfl))
        · exact delta_trans (delta_trans (delta_single _ _ (by rfl))
            (delta_single _ _ (by rfl))) (delta_single _ _ (by rfl))
theorem delta_catalogConfig (t : List Effect) (c : FlowConnectionConfigs) :
    ∃ δ, t ++ [Effect.catalogConfig c] = t ++ δ ∧ Benign δ :=
  ⟨_, rfl, Benign_catalogConfig c⟩

theorem applyScalarUpdates_trace (u : CDCFlowConfigUpdate) (m : Machine) :
    (applyScalarUpdates u m).trace = m.trace := by
  unfold applyScalarUpdates
  cases u.UpdatedEnv <;> rfl

theorem processCDCFlowConfigUpdate_delta (penv : ProcEnv) (m : Machine) :
    ∃ δ, (processCDCFlowConfigUpdate penv m).1.trace = m.trace ++ δ ∧ Benign δ := by
  unfold processCDCFlowConfigUpdate
  split
  · exact ⟨[], by simp, Benign_nil⟩
  · next u heq =>
    have hsc : (applyScalarUpdates u m).trace = m.trace := applyScalarUpdates_trace u m
    dsimp only
    split
    · exact delta_trans ⟨[], by simp [hsc], Benign_nil⟩ (delta_catalogConfig _ _)
    · split
      case _ m' e heqA =>
        have h3 := congrArg Prod.fst heqA
        dsimp only at h3
        rw [← h3]
        split
        · exact delta_trans ⟨[], by simp [hsc], Benign_nil⟩ (processTableAdditions_delta penv _)
        · exact ⟨[], by simp [hsc], Benign_nil⟩
      case _ m' heqA =>
        have h3 := congrArg Prod.fst heqA
        dsimp only at h3
        have h4 : ∃ δ, m'.trace = m.trace ++ δ ∧ Benign δ := by
          rw [← h3]
          split
          · exact delta_trans ⟨[], by simp [hsc], Benign_nil⟩ (processTableAdditions_delta penv _)
          · exact ⟨[], by simp [hsc], Benign_nil⟩
        split
        case _ m2 e heqR =>
          have h5 := congrArg Prod.fst heqR
          dsimp only at h5
          rw [← h5]
          split
          · exact delta_trans h4 (processTableRemovals_delta penv _)
          · exact h4
        case _ m2 heqR =>
          have h5 := congrArg Prod.fst heqR
          dsimp only at h5
          have h6 : ∃ δ, m2.trace = m.trace ++ δ ∧ Benign δ := by
            rw [← h5]
            split
            · exact delta_trans h4 (processTableRemovals_delta penv _)
            · exact h4
          exact delta_trans h6 (delta_catalogConfig _ _)
/-- The pause loop issues only benign effects; in particular a cancellation
observed there returns without writing status Terminated. -/
theorem pauseLoopRun_delta (pauseEvents : List PauseEvent) (penv : ProcEnv) (m : Machine) :
    ∃ δ, (pauseLoopRun pauseEvents penv m).trace = m.trace ++ δ ∧ Benign δ := by
  unfold pauseLoopRun
  have h1 : ∃ δ, (pauseInnerLoop pauseEvents (updateStatus m .STATUS_PAUSED)).1.trace
      = m.trace ++ δ ∧ Benign δ :=
    delta_trans (delta_statusPair m.trace .STATUS_PAUSED (by decide))
      (pauseInnerLoop_delta pauseEvents (updateStatus m .STATUS_PAUSED))
  dsimp only
  split
  · exact h1
  · split
    · exact h1
    · split
      · exact h1
      · split
        case _ m' e heqU =>
          have h3 := congrArg Prod.fst heqU
          dsimp only at h3
          rw [← h3]
          split
          · split
            case _ m2 e2 heqP =>
              have h5 := congrArg Prod.fst heqP
              dsimp only at h5
              rw [← h5]
              exact delta_trans h1 (processCDCFlowConfigUpdate_delta penv _)
            case _ m2 heqP =>
              have h5 := congrArg Prod.fst heqP
              dsimp only at h5
              rw [← h5]
              exact delta_trans h1 (processCDCFlowConfigUpdate_delta penv _)
          · exact h1
        case _ m' heqU =>
          have h4 : ∃ δ, m'.trace = m.trace ++ δ ∧ Benign δ := by
            have h3 := congrArg Prod.fst heqU
            dsimp only at h3
            rw [← h3]
            split
            · split
              case _ m2 e2 heqP =>
                have h5 := congrArg Prod.fst heqP
                dsimp only at h5
                rw [← h5]
                exact delta_trans h1 (processCDCFlowConfigUpdate_delta penv _)
              case _ m2 heqP =>
                have h5 := congrArg Prod.fst heqP
                dsimp only at h5
                rw [← h5]
                exact delta_trans h1 (processCDCFlowConfigUpdate_delta penv _)
            · exact h1
          exact delta_trans h4 (delta_statusPair _ .STATUS_RUNNING (by decide))
def SetupLoopResult.traceOf : SetupLoopResult → List Effect
  | .completed m _ => m.trace
  | .exited o => o.trace

theorem setupWaitLoop_delta (original : List TableMapping) (errText : String)
    (evs : List SetupPhaseEvent) : ∀ m : Machine,
    ∃ δ, (setupWaitLoop original errText evs m).traceOf = m.trace ++ δ ∧ Benign δ := by
  induction evs with
  | nil =>
    intro m
    exact ⟨[], by simp [setupWaitLoop, SetupLoopResult.traceOf], Benign_nil⟩
  | cons e rest ih =>
    intro m
    unfold setupWaitLoop
    cases e with
    | cancelEvent =>
      dsimp only
      split
      · exact ⟨[], by simp [SetupLoopResult.traceOf], Benign_nil⟩
      · split
        · exact ⟨[], by simp [SetupLoopResult.traceOf], Benign_nil⟩
        · split
          · exact ⟨[], by simp [SetupLoopResult.traceOf], Benign_nil⟩
          · exact ih _
    | stateChange val =>
      obtain ⟨δ1, h1, b1⟩ := setupStateChange_delta original val m
      dsimp only
      split
      · exact ⟨δ1, by simp [SetupLoopResult.traceOf, h1], b1⟩
      · split
        · exact ⟨δ1, by simp [SetupLoopResult.traceOf, h1], b1⟩
        · split
          · exact ⟨δ1, by simp [SetupLoopResult.traceOf, h1], b1⟩
          · obtain ⟨δ2, h2, b2⟩ := ih (setupStateChange original val m)
            exact ⟨δ1 ++ δ2, by rw [h2, h1, List.append_assoc], Benign_append b1 b2⟩
    | futureOk p =>
      dsimp only
      split
      · exact ⟨[], by simp [SetupLoopResult.traceOf], Benign_nil⟩
      · split
        · exact ⟨[], by simp [SetupLoopResult.traceOf], Benign_nil⟩
        · split
          · exact ⟨[], by simp [SetupLoopResult.traceOf], Benign_nil⟩
          · exact ⟨[], by simp [SetupLoopResult.traceOf], Benign_nil⟩
    | futureErr =>
      dsimp only
      split
      · exact ⟨[], by simp [SetupLoopResult.traceOf], Benign_nil⟩
      · split
        · exact ⟨[], by simp [SetupLoopResult.traceOf], Benign_nil⟩
        · split
          · exact ⟨[], by simp [SetupLoopResult.traceOf], Benign_nil⟩
          · exact ih _
theorem setupRenamePart_delta (env : SetupEnv) (original : List TableMapping) (m : Machine) :
    (∀ o, setupRenamePart env original m = .inl o →
      ∃ δ, o.trace = m.trace ++ δ ∧ Benign δ) ∧
    (∀ m2, setupRenamePart env original m = .inr m2 →
      ∃ δ, m2.trace = m.trace ++ δ ∧ Benign δ) := by
  unfold setupRenamePart
  constructor
  · intro o heq
    split at heq
    · dsimp only at heq
      split at heq
      case _ o2 heqL =>
        injection heq with h
        subst h
        have h3 := congrArg SetupLoopResult.traceOf heqL
        simp only [SetupLoopResult.traceOf] at h3
        rw [← h3]
        exact delta_trans (delta_single _ _ (by rfl))
          (setupWaitLoop_delta original _ env.renameEvents _)
      case _ m2 p heqL => simp at heq
    · simp at heq
  · intro m2 heq
    split at heq
    · dsimp only at heq
      split at heq
      case _ o2 heqL => simp at heq
      case _ m3 p heqL =>
        injection heq with h
        subst h
        have h3 := congrArg SetupLoopResult.traceOf heqL
        simp only [SetupLoopResult.traceOf] at h3
        rw [← h3]
        exact delta_trans (delta_single _ _ (by rfl))
          (setupWaitLoop_delta original _ env.renameEvents _)
    · injection heq with h
      subst h
      exact ⟨[], by simp, Benign_nil⟩
theorem setupPhaseCore_delta (env : SetupEnv) (original : List TableMapping) (m : Machine) :
    ∃ δ, (setupPhaseCore env original m).trace = m.trace ++ δ ∧ Benign δ := by
  unfold setupPhaseCore
  dsimp only
  split
  case _ o heqL =>
    have h3 := congrArg SetupLoopResult.traceOf heqL
    simp only [SetupLoopResult.traceOf] at h3
    rw [← h3]
    exact delta_trans (delta_single _ _ (by rfl)) (setupWaitLoop_delta _ _ env.setupEvents _)
  case _ m2 srcMap heqL =>
    have hup : ∃ δ, m2.trace = m.trace ++ δ ∧ Benign δ := by
      have h3 := congrArg SetupLoopResult.traceOf heqL
      simp only [SetupLoopResult.traceOf] at h3
      rw [← h3]
      exact delta_trans (delta_single _ _ (by rfl)) (setupWaitLoop_delta _ _ env.setupEvents _)
    split
    case _ o heq2 =>
      have h3 := congrArg SetupLoopResult.traceOf heq2
      simp only [SetupLoopResult.traceOf] at h3
      rw [← h3]
      exact delta_trans (delta_trans hup (delta_trans
        (delta_statusPair m2.trace .STATUS_SNAPSHOT (by decide)) (delta_single _ _ (by rfl))))
        (setupWaitLoop_delta _ _ env.snapshotEvents _)
    case _ m4 p heq2 =>
      have hup2 : ∃ δ, m4.trace = m.trace ++ δ ∧ Benign δ := by
        have h3 := congrArg SetupLoopResult.traceOf heq2
        simp only [SetupLoopResult.traceOf] at h3
        rw [← h3]
        exact delta_trans (delta_trans hup (delta_trans
          (delta_statusPair m2.trace .STATUS_SNAPSHOT (by decide)) (delta_single _ _ (by rfl))))
          (setupWaitLoop_delta _ _ env.snapshotEvents _)
      split
      case _ o heqR => exact delta_trans hup2 ((setupRenamePart_delta env original m4).1 o heqR)
      case _ m5 heqR =>
        have hup3 : ∃ δ, m5.trace = m.trace ++ δ ∧ Benign δ :=
          delta_trans hup2 ((setupRenamePart_delta env original m4).2 m5 heqR)
        split
        · exact delta_trans hup3 (delta_statusPair m5.trace .STATUS_COMPLETED (by decide))
        · exact delta_trans hup3 (delta_statusPair m5.trace .STATUS_RUNNING (by decide))

theorem setupPhase_delta (env : SetupEnv) (m : Machine) :
    ∃ δ, (setupPhase env m).trace = m.trace ++ δ ∧ Benign δ := by
  unfold setupPhase
  dsimp only
  split
  · exact setupPhaseCore_delta env m.cfg.TableMappings _
  · exact setupPhaseCore_delta env m.cfg.TableMappings m
theorem processMainEvent_delta (e : MainEvent) (s : MainM) :
    ∃ δ, (processMainEvent e s).m.trace = s.m.trace ++ δ ∧ Benign δ := by
  cases e with
  | cancelEvent => exact ⟨[], by simp [processMainEvent], Benign_nil⟩
  | syncDone res =>
    unfold processMainEvent
    dsimp only
    split
    · exact ⟨[], by simp, Benign_nil⟩
    · cases res with
      | ok =>
        dsimp only
        split
        · exact ⟨[], by simp, Benign_nil⟩
        · exact ⟨[], by simp, Benign_nil⟩
      | canceledErr => exact ⟨[], by simp, Benign_nil⟩
      | failed kind now =>
        dsimp only
        split
        · exact ⟨[], by simp, Benign_nil⟩
        · exact ⟨[], by simp, Benign_nil⟩
  | sleepFired =>
    unfold processMainEvent
    dsimp only
    split
    · split
      · exact ⟨[], by simp, Benign_nil⟩
      · exact ⟨[], by simp, Benign_nil⟩
    · exact ⟨[], by simp, Benign_nil⟩
  | flowSignal val =>
    unfold processMainEvent
    dsimp only
    split
    · exact ⟨[], by simp, Benign_nil⟩
    · exact ⟨[], by simp, Benign_nil⟩
  | stateChange val =>
    have h := mainLoopStateChange_delta val s.m
    simpa only [processMainEvent] using h
  | cdcProperties upd => exact ⟨[], by simp [processMainEvent], Benign_nil⟩

theorem processMainEvents_delta (evs : List MainEvent) : ∀ s : MainM,
    ∃ δ, (processMainEvents evs s).m.trace = s.m.trace ++ δ ∧ Benign δ := by
  induction evs with
  | nil => intro s; exact ⟨[], by simp [processMainEvents], Benign_nil⟩
  | cons e rest ih =>
    intro s
    unfold processMainEvents
    split
    · exact ⟨[], by simp, Benign_nil⟩
    · obtain ⟨δ1, h1, b1⟩ := processMainEvent_delta e s
      obtain ⟨δ2, h2, b2⟩ := ih (processMainEvent e s)
      exact ⟨δ1 ++ δ2, by rw [h2, h1, List.append_assoc], Benign_append b1 b2⟩
theorem mirrored_of_delta {a b : List Effect} (h : ∃ δ, b = a ++ δ ∧ Benign δ)
    (hm : Mirrored a) : Mirrored b := by
  obtain ⟨δ, he, hb, _, _⟩ := h
  simp only [Mirrored] at hm hb ⊢
  rw [he, assignedStatuses_append, catalogStatuses_append, hm, hb]

theorem mirrored_statusPair {t : List Effect} (s : FlowStatus) (hm : Mirrored t) :
    Mirrored (t ++ [.assignStatus s, .catalogStatus s]) := by
  simp only [Mirrored] at hm ⊢
  rw [assignedStatuses_append, catalogStatuses_append, hm]
  simp [assignedStatuses, catalogStatuses]

theorem mirrored_append_await {t : List Effect} (hm : Mirrored t) :
    Mirrored (t ++ [.syncCancelAwaited]) := by
  simp only [Mirrored] at hm ⊢
  rw [assignedStatuses_append, catalogStatuses_append, hm]
  simp [assignedStatuses, catalogStatuses]

theorem notMem_term_of_delta {a b : List Effect} (h : ∃ δ, b = a ++ δ ∧ Benign δ)
    (h0 : Effect.catalogStatus .STATUS_TERMINATED ∉ a) :
    Effect.catalogStatus .STATUS_TERMINATED ∉ b := by
  obtain ⟨δ, he, _, ht, _⟩ := h
  rw [he]
  simp [h0, ht]

theorem notMem_await_of_delta {a b : List Effect} (h : ∃ δ, b = a ++ δ ∧ Benign δ)
    (h0 : Effect.syncCancelAwaited ∉ a) : Effect.syncCancelAwaited ∉ b := by
  obtain ⟨δ, he, _, _, ha⟩ := h
  rw [he]
  simp [h0, ha]

/-- During the main loop, every status assignment remains mirrored to the
catalog: the only extra status write is the Terminated pair issued through
`updateStatus` in the drain-cancellation branch. -/
theorem mainLoopRounds_mirrored (rounds : List MainRound) : ∀ s : MainM,
    Mirrored s.m.trace → Mirrored (mainLoopRounds rounds s).trace := by
  induction rounds with
  | nil => intro s h; simpa [mainLoopRounds] using h
  | cons round rest ih =>
    intro s h
    have h1 : Mirrored (processMainEvents round.events s).m.trace :=
      mirrored_of_delta (processMainEvents_delta round.events s) h
    unfold mainLoopRounds
    dsimp only
    split
    · exact h1
    · split
      · -- finished branch
        have h2 : Mirrored (processMainEvents round.drainEvents
            { processMainEvents round.events s with
              m := emit (processMainEvents round.events s).m .syncCancelAwaited,
              finished := ((processMainEvents round.events s).finished
                || round.shouldContinueAsNew),
              syncHandled := true }).m.trace := by
          apply mirrored_of_delta (processMainEvents_delta round.drainEvents _)
          exact mirrored_append_await h1
        split
        · exact mirrored_statusPair _ h2
        · split
          · exact h2
          · exact h2
      · exact ih _ h1
/-- Cancellation analysis of the main loop: when the loop returns the
cancellation error, status Terminated was written exactly when the sync
activity had already been cancelled and awaited (the drain branch);
cancellation observed before `finished` returns without the Terminated
write. -/
theorem mainLoopRounds_cancel (rounds : List MainRound) : ∀ s : MainM,
    Effect.catalogStatus .STATUS_TERMINATED ∉ s.m.trace →
    Effect.syncCancelAwaited ∉ s.m.trace →
    (mainLoopRounds rounds s).err = some .canceled →
    (Effect.catalogStatus .STATUS_TERMINATED ∈ (mainLoopRounds rounds s).trace ↔
      Effect.syncCancelAwaited ∈ (mainLoopRounds rounds s).trace) := by
  induction rounds with
  | nil =>
    intro s ht ha herr
    simp [mainLoopRounds] at herr
  | cons round rest ih =>
    intro s ht ha
    have ht1 : Effect.catalogStatus .STATUS_TERMINATED ∉ (processMainEvents round.events s).m.trace :=
      notMem_term_of_delta (processMainEvents_delta round.events s) ht
    have ha1 : Effect.syncCancelAwaited ∉ (processMainEvents round.events s).m.trace :=
      notMem_await_of_delta (processMainEvents_delta round.events s) ha
    unfold mainLoopRounds
    dsimp only
    split
    · -- cancellation observed before finished: no Terminated write, no await
      intro _
      constructor
      · intro hmem; exact absurd hmem ht1
      · intro hmem; exact absurd hmem ha1
    · split
      · -- finished: the sync activity is cancelled and awaited
        have haw : Effect.syncCancelAwaited ∈ (processMainEvents round.drainEvents
            { processMainEvents round.events s with
              m := emit (processMainEvents round.events s).m .syncCancelAwaited,
              finished := ((processMainEvents round.events s).finished
                || round.shouldContinueAsNew),
              syncHandled := true }).m.trace := by
          obtain ⟨δ, he, _⟩ := processMainEvents_delta round.drainEvents
            { processMainEvents round.events s with
              m := emit (processMainEvents round.events s).m .syncCancelAwaited,
              finished := ((processMainEvents round.events s).finished
                || round.shouldContinueAsNew),
              syncHandled := true }
          rw [he]
          simp [emit]
        split
        · -- cancelled during drain: Terminated is written before returning
          intro _
          constructor
          · intro _
            exact List.mem_append_left _ haw
          · intro _
            apply List.mem_append_right
            simp
        · -- not cancelled: the branch continues-as-new, never a cancellation
          split
          · intro herr; simp at herr
          · intro herr; simp at herr
      · exact ih _ ht1 ha1
theorem mainLoop_mirrored (rounds : List MainRound) (m : Machine)
    (h : Mirrored m.trace) : Mirrored (mainLoop rounds m).trace := by
  unfold mainLoop
  apply mainLoopRounds_mirrored
  exact mirrored_statusPair _ (mirrored_of_delta ⟨_, rfl, Benign_single _ (by rfl)⟩ h)

theorem mainLoop_cancel (rounds : List MainRound) (m : Machine)
    (ht : Effect.catalogStatus .STATUS_TERMINATED ∉ m.trace)
    (ha : Effect.syncCancelAwaited ∉ m.trace)
    (herr : (mainLoop rounds m).err = some .canceled) :
    (Effect.catalogStatus .STATUS_TERMINATED ∈ (mainLoop rounds m).trace ↔
      Effect.syncCancelAwaited ∈ (mainLoop rounds m).trace) := by
  unfold mainLoop at herr ⊢
  apply mainLoopRounds_cancel _ _ _ _ herr
  · simp [emit]
    exact fun h => absurd h ht
  · simp [emit]
    exact fun h => absurd h ha
/-- C2: for every assignment of a new value to `CurrentFlowStatus` during
`CDCFlowWorkflow` (including the initial Setup status on state creation), a
catalog status-update call carrying that new status is issued before the
workflow returns or continues-as-new: over every complete run, the sequence
of statuses assigned to the state equals the sequence of statuses sent to
the catalog. -/
theorem c2_status_mirrored_to_catalog (env : Env) (cfg? : Option FlowConnectionConfigs)
    (state? : Option CDCFlowWorkflowState) :
    assignedStatuses (CDCFlowWorkflow env cfg? state?).trace
      = catalogStatuses (CDCFlowWorkflow env cfg? state?).trace := by
  unfold CDCFlowWorkflow
  cases cfg? with
  | none => rfl
  | some cfg =>
    cases state? with
    | some st =>
      dsimp only
      split
      · rfl
      · split
        · exact mirrored_of_delta (pauseLoopRun_delta env.pauseEvents env.pauseProcEnv _) rfl
        · split
          · rfl
          · split
            · exact mirrored_of_delta (setupPhase_delta env.setupEnv _) rfl
            · exact mainLoop_mirrored env.mainRounds _ rfl
    | none =>
      dsimp only
      split
      · rfl
      · split
        · exact mirrored_of_delta (pauseLoopRun_delta env.pauseEvents env.pauseProcEnv _) rfl
        · split
          · rfl
          · split
            · exact mirrored_of_delta (setupPhase_delta env.setupEnv _) rfl
            · exact mainLoop_mirrored env.mainRounds _ rfl
/-- C1 (amended): when `CDCFlowWorkflow` returns the cancellation error,
status Terminated is written to the state and sent to the catalog exactly
when the cancellation was observed in the main loop after the flow had
finished and the sync activity had been cancelled and awaited; cancellation
observed in the pause loop, in the setup/snapshot phase, or in the main loop
before the flow finished returns the error without writing Terminated. -/
theorem c1_terminated_iff_sync_awaited (env : Env) (cfg? : Option FlowConnectionConfigs)
    (state? : Option CDCFlowWorkflowState)
    (h : (CDCFlowWorkflow env cfg? state?).err = some .canceled) :
    (Effect.catalogStatus .STATUS_TERMINATED ∈ (CDCFlowWorkflow env cfg? state?).trace ↔
      Effect.syncCancelAwaited ∈ (CDCFlowWorkflow env cfg? state?).trace) := by
  revert h
  unfold CDCFlowWorkflow
  cases cfg? with
  | none => intro h; simp at h
  | some cfg =>
    cases state? with
    | some st =>
      dsimp only
      split
      · intro h; simp at h
      · split
        · intro h
          have hd := pauseLoopRun_delta env.pauseEvents env.pauseProcEnv ⟨cfg, st, false, []⟩
          constructor
          · intro hm; exact absurd hm (notMem_term_of_delta hd (by simp))
          · intro hm; exact absurd hm (notMem_await_of_delta hd (by simp))
        · split
          · intro h; simp at h
          · split
            · intro h
              have hd := setupPhase_delta env.setupEnv ⟨cfg, st, false, []⟩
              constructor
              · intro hm; exact absurd hm (notMem_term_of_delta hd (by simp))
              · intro hm; exact absurd hm (notMem_await_of_delta hd (by simp))
            · exact mainLoop_cancel env.mainRounds _ (by simp) (by simp)
    | none =>
      dsimp only
      split
      · intro h; simp at h
      · split
        · intro h
          have hd := pauseLoopRun_delta env.pauseEvents env.pauseProcEnv
            ⟨cfg, NewCDCFlowWorkflowState cfg, false,
              [Effect.assignStatus .STATUS_SETUP, Effect.catalogStatus .STATUS_SETUP]⟩
          constructor
          · intro hm; exact absurd hm (notMem_term_of_delta hd (by simp))
          · intro hm; exact absurd hm (notMem_await_of_delta hd (by simp))
        · split
          · intro h; simp at h
          · split
            · intro h
              have hd := setupPhase_delta env.setupEnv
                ⟨cfg, NewCDCFlowWorkflowState cfg, false,
                  [Effect.assignStatus .STATUS_SETUP, Effect.catalogStatus .STATUS_SETUP]⟩
              constructor
              · intro hm; exact absurd hm (notMem_term_of_delta hd (by simp))
              · intro hm; exact absurd hm (notMem_await_of_delta hd (by simp))
            · exact mainLoop_cancel env.mainRounds _ (by simp) (by simp)
/-! ## Sample data for counterexamples and witnesses -/

def sampleMappingA : TableMapping :=
  { SourceTableIdentifier := "public.a", DestinationTableIdentifier := "dst_a",
    PartitionKey := "", Exclude := [], Engine := .CH_ENGINE_REPLACING_MERGE_TREE }

def sampleMappingB : TableMapping :=
  { SourceTableIdentifier := "public.b", DestinationTableIdentifier := "dst_b",
    PartitionKey := "", Exclude := [], Engine := .CH_ENGINE_NULL }

def sampleCfg : FlowConnectionConfigs :=
  { FlowJobName := "m1", SourceName := "src", DestinationName := "dst",
    TableMappings := [sampleMappingA, sampleMappingB], MaxBatchSize := 100,
    IdleTimeoutSeconds := 60, DoInitialSnapshot := true, InitialSnapshotOnly := false,
    Resync := false, SoftDeleteColName := "_peerdb_is_deleted",
    SyncedAtColName := "_peerdb_synced_at", Env := [],
    SnapshotNumRowsPerPartition := 1000, SnapshotMaxParallelWorkers := 4,
    SnapshotNumTablesInParallel := 1 }

def samplePausedState : CDCFlowWorkflowState :=
  { NewCDCFlowWorkflowState sampleCfg with
    ActiveSignal := .PauseSignal, CurrentFlowStatus := .STATUS_PAUSED }

def sampleProcEnv : ProcEnv :=
  { addPublicationOk := true, addTablesEvents := [], removePublicationOk := true,
    removeRawTableOk := true, removeCatalogOk := true }

/-- An environment whose only delivered event is a context cancellation in the
pause loop. -/
def cancelPauseEnv : Env :=
  { metadataObtainable := true, pauseEvents := [.cancelEvent],
    pauseProcEnv := sampleProcEnv, setupEnv := ⟨[], [], []⟩, mainRounds := [] }

/-- Counterexample to claim C1 as stated: a run whose workflow context is
cancelled in the pause loop returns the cancellation error while no
Terminated status-update is ever issued (the state stays Paused). -/
theorem c1_counterexample :
    (CDCFlowWorkflow cancelPauseEnv (some sampleCfg) (some samplePausedState)).err
        = some .canceled ∧
      Effect.catalogStatus .STATUS_TERMINATED ∉
        (CDCFlowWorkflow cancelPauseEnv (some sampleCfg) (some samplePausedState)).trace := by
  decide

/-- An environment in which the sync activity completes cleanly and the
context is cancelled while draining the selector afterwards. -/
def drainCancelEnv : Env :=
  { metadataObtainable := true, pauseEvents := [], pauseProcEnv := sampleProcEnv,
    setupEnv := ⟨[], [], []⟩,
    mainRounds := [{ events := [.syncDone .ok], shouldContinueAsNew := false,
                     drainEvents := [.cancelEvent] }] }

def sampleRunningState : CDCFlowWorkflowState :=
  { NewCDCFlowWorkflowState sampleCfg with CurrentFlowStatus := .STATUS_RUNNING }

theorem c1_witness :
    (CDCFlowWorkflow drainCancelEnv (some sampleCfg) (some sampleRunningState)).err
        = some .canceled ∧
      (Effect.catalogStatus .STATUS_TERMINATED ∈
          (CDCFlowWorkflow drainCancelEnv (some sampleCfg) (some sampleRunningState)).trace ↔
        Effect.syncCancelAwaited ∈
          (CDCFlowWorkflow drainCancelEnv (some sampleCfg) (some sampleRunningState)).trace) :=
  ⟨by decide,
    c1_terminated_iff_sync_awaited drainCancelEnv (some sampleCfg) (some sampleRunningState)
      (by decide)⟩
/-- C10: invoking `CDCFlowWorkflow` with a nil config returns a nil result
and the error "invalid connection configs" immediately, with an empty effect
trace: no state is created, no catalog call is made and no child workflow or
activity is launched. -/
theorem c10_nil_config (env : Env) (state? : Option CDCFlowWorkflowState) :
    CDCFlowWorkflow env none state?
      = ⟨none, some (.errMsg ("invalid connection configs")), []⟩ := rfl

/-- C8: in each of the four `FlowStateChange` handler sites (pause loop,
setup/snapshot phase, main loop, add-tables subloop), a Resync request
prepares a `DropFlowInput` with `Resync = true` and a Terminating request
prepares one with `Resync = false`. -/
theorem c8_dropflow_resync_flag (m : Machine) (stats skip : Bool)
    (original : List TableMapping) :
    ((pauseLoopStateChange ⟨.STATUS_TERMINATING, stats, skip⟩ m).state.DropFlowInput.map
        (fun d => d.Resync) = some false)
  ∧ ((pauseLoopStateChange ⟨.STATUS_RESYNC, stats, skip⟩ m).state.DropFlowInput.map
        (fun d => d.Resync) = some true)
  ∧ ((setupStateChange original ⟨.STATUS_TERMINATING, stats, skip⟩ m).state.DropFlowInput.map
        (fun d => d.Resync) = some false)
  ∧ ((setupStateChange original ⟨.STATUS_RESYNC, stats, skip⟩ m).state.DropFlowInput.map
        (fun d => d.Resync) = some true)
  ∧ ((mainLoopStateChange ⟨.STATUS_TERMINATING, stats, skip⟩ m).state.DropFlowInput.map
        (fun d => d.Resync) = some false)
  ∧ ((mainLoopStateChange ⟨.STATUS_RESYNC, stats, skip⟩ m).state.DropFlowInput.map
        (fun d => d.Resync) = some true)
  ∧ ((addTablesStateChange ⟨.STATUS_TERMINATING, stats, skip⟩ m).state.DropFlowInput.map
        (fun d => d.Resync) = some false)
  ∧ ((addTablesStateChange ⟨.STATUS_RESYNC, stats, skip⟩ m).state.DropFlowInput.map
        (fun d => d.Resync) = some true) :=
  ⟨rfl, rfl, rfl, rfl, rfl, rfl, rfl, rfl⟩

/-- C9: during the setup/snapshot phase of a run that is already resyncing, a
nested Resync request restores `cfg.TableMappings` from the saved copy of the
entry mappings before uploading the config proto: the uploaded config is the
entry config with Resync and DoInitialSnapshot set and with the original
(unsuffixed) table mappings, independent of the suffixed mappings held in
`SyncFlowOptions.TableMappings`, and the prepared `DropFlowInput` carries
that same config. -/
theorem c9_nested_resync_preserves_original_mappings
    (cfg : FlowConnectionConfigs) (st : CDCFlowWorkflowState) (t0 : List Effect)
    (stats skip : Bool) (rest snapEvs renEvs : List SetupPhaseEvent) :
    (setupPhase ⟨.stateChange ⟨.STATUS_RESYNC, stats, skip⟩ :: rest, snapEvs, renEvs⟩
        ⟨{ cfg with Resync := true }, st, false, t0⟩).trace
      = t0 ++
        [.startSetupFlow
            ({ cfg with
                Resync := true,
                TableMappings := resyncSuffixMappings st.SyncFlowOptions.TableMappings }),
          .catalogConfig ({ cfg with Resync := true, DoInitialSnapshot := true })]
    ∧ (setupPhase ⟨.stateChange ⟨.STATUS_RESYNC, stats, skip⟩ :: rest, snapEvs, renEvs⟩
        ⟨{ cfg with Resync := true }, st, false, t0⟩).err
      = some (.canDropFlow (some
          { FlowJobName := cfg.FlowJobName,
            FlowConnectionConfigs := some { cfg with Resync := true, DoInitialSnapshot := true },
            DropFlowStats := stats, SkipDestinationDrop := skip, Resync := true })) :=
  ⟨(List.append_cons t0 _ _).symm, rfl⟩
/-- C3: when the SyncFlow activity fails while the flow is not already
finished and the error is not `workflow.ErrCanceled`, the sleep registered
before retry is exactly `10 + min(ErrorCount,3)*15` minutes for a panic
error, `1 + min(ErrorCount,9)` minutes for a non-application error or an
application error containing "(SQLSTATE 55006)", and `5 + min(ErrorCount,5)*15`
minutes for other application errors, where `ErrorCount` is taken after the
24-hour reset check. -/
theorem c3_backoff_sleep_durations (s : MainM) (now : Int) (b : Bool)
    (hf : s.finished = false) (hh : s.syncHandled = false) :
    ((processMainEvent (.syncDone (.failed .panicError now)) s).registeredSleepMinutes
        = some (10 + min (if s.m.state.LastError + 1440 < now then 0
            else s.m.state.ErrorCount) 3 * 15))
  ∧ ((processMainEvent (.syncDone (.failed (.applicationError true) now)) s).registeredSleepMinutes
        = some (1 + min (if s.m.state.LastError + 1440 < now then 0
            else s.m.state.ErrorCount) 9))
  ∧ ((processMainEvent (.syncDone (.failed (.nonApplicationError b) now)) s).registeredSleepMinutes
        = some (1 + min (if s.m.state.LastError + 1440 < now then 0
            else s.m.state.ErrorCount) 9))
  ∧ ((processMainEvent (.syncDone (.failed (.applicationError false) now)) s).registeredSleepMinutes
        = some (5 + min (if s.m.state.LastError + 1440 < now then 0
            else s.m.state.ErrorCount) 5 * 15)) := by
  refine ⟨?_, ?_, ?_, ?_⟩ <;>
    simp [processMainEvent, handleSyncError, hf, hh]

def sampleMainM : MainM :=
  { m := { cfg := sampleCfg, state := sampleRunningState, cancelled := false, trace := [] },
    finished := false, finishedError := false, syncHandled := false,
    registeredSleepMinutes := none }

theorem c3_witness :
    sampleMainM.finished = false ∧ sampleMainM.syncHandled = false ∧
    ((processMainEvent (.syncDone (.failed .panicError 2000)) sampleMainM).registeredSleepMinutes
        = some (10 + min (if sampleMainM.m.state.LastError + 1440 < 2000 then 0
            else sampleMainM.m.state.ErrorCount) 3 * 15)) :=
  ⟨rfl, rfl, (c3_backoff_sleep_durations sampleMainM 2000 true rfl rfl).1⟩
/-- C4: the error count is reset to zero when a new sync error occurs more
than 24 hours (1440 minutes) after the previous one; on flow finish it is
incremented by one when the post-error sleep fired (`finishedError`, set by
the sleep-future callback) and reset to zero otherwise — the main loop
applies `finishErrorCount` to the state in its `finished` branch. -/
theorem c4_error_count_lifecycle (s : MainM) (now : Int) (kind : SyncErrKind) (ec : Int)
    (hf : s.finished = false) (hh : s.syncHandled = false)
    (h24 : s.m.state.LastError + 1440 < now) :
    ((processMainEvent (.syncDone (.failed kind now)) s).m.state.ErrorCount = 0)
  ∧ (finishErrorCount true ec = ec + 1)
  ∧ (finishErrorCount false ec = 0)
  ∧ (∀ s2 : MainM, s2.registeredSleepMinutes.isSome = true →
      (processMainEvent .sleepFired s2).finishedError = true
        ∧ (processMainEvent .sleepFired s2).finished = true) := by
  refine ⟨?_, rfl, rfl, ?_⟩
  · simp [processMainEvent, handleSyncError, hf, hh, h24]
  · intro s2 hreg
    constructor <;> simp [processMainEvent, hreg] <;> split <;> rfl

theorem c4_witness :
    sampleMainM.finished = false ∧ sampleMainM.syncHandled = false ∧
    sampleMainM.m.state.LastError + 1440 < 2000 ∧
    ((processMainEvent (.syncDone (.failed .panicError 2000)) sampleMainM).m.state.ErrorCount = 0) ∧
    finishErrorCount true 3 = 4 ∧ finishErrorCount false 3 = 0 :=
  ⟨rfl, rfl, by decide,
    (c4_error_count_lifecycle sampleMainM 2000 .panicError 3 rfl rfl (by decide)).1,
    (c4_error_count_lifecycle sampleMainM 2000 .panicError 3 rfl rfl (by decide)).2.1,
    (c4_error_count_lifecycle sampleMainM 2000 .panicError 3 rfl rfl (by decide)).2.2.1⟩
theorem trimSuffix_append (d suf : String) : trimSuffix (d ++ suf) suf = d := by
  unfold trimSuffix
  have hdata : (d ++ suf).data = d.data ++ suf.data := String.data_append d suf
  rw [hdata]
  have hsuf : suf.data.isSuffixOf (d.data ++ suf.data) = true := by
    rw [List.isSuffixOf_iff_suffix]
    exact List.suffix_append d.data suf.data
  rw [if_pos hsuf]
  have hlen : d.data.length + suf.data.length - suf.data.length = d.data.length := by omega
  rw [List.length_append, hlen, List.take_left]
theorem renameMapping_resyncSuffix (m : TableMapping) :
    (renameMappingStep (resyncSuffixMapping m)).2 = m := by
  rcases m with ⟨s, d, p, ex, e⟩
  by_cases h : e = TableEngine.CH_ENGINE_NULL
  · simp [resyncSuffixMapping, renameMappingStep, h]
  · simp [resyncSuffixMapping, renameMappingStep, h, trimSuffix_append]

/-- C7: on a resync pass, every mapping whose engine is not `CH_ENGINE_NULL`
gets "_resync" appended to its destination identifier during the
setup/snapshot phase, mappings with the null engine pass through unchanged,
and the post-snapshot rename step restores every destination identifier to
its pre-resync value (the whole mapping list round-trips). -/
theorem c7_resync_suffix_roundtrip (tms : List TableMapping) (tm tmN : TableMapping)
    (h : tm.Engine ≠ TableEngine.CH_ENGINE_NULL)
    (hN : tmN.Engine = TableEngine.CH_ENGINE_NULL) :
    (renameStep (resyncSuffixMappings tms)).2 = tms
  ∧ (resyncSuffixMapping tm).DestinationTableIdentifier
      = tm.DestinationTableIdentifier ++ "_resync"
  ∧ (resyncSuffixMapping tmN).DestinationTableIdentifier = tmN.DestinationTableIdentifier
  ∧ (renameMappingStep (resyncSuffixMapping tmN)).2 = tmN := by
  refine ⟨?_, ?_, ?_, renameMapping_resyncSuffix tmN⟩
  · unfold renameStep resyncSuffixMappings
    dsimp only
    rw [List.map_map]
    induction tms with
    | nil => rfl
    | cons hd tl ih =>
      simp only [List.map_cons, Function.comp_apply, renameMapping_resyncSuffix hd,
        List.cons.injEq, true_and]
      exact ih
  · simp [resyncSuffixMapping, h]
  · simp [resyncSuffixMapping, hN]

theorem c7_witness :
    sampleMappingA.Engine ≠ TableEngine.CH_ENGINE_NULL ∧
    sampleMappingB.Engine = TableEngine.CH_ENGINE_NULL ∧
    ((renameStep (resyncSuffixMappings [sampleMappingA, sampleMappingB])).2
        = [sampleMappingA, sampleMappingB]
      ∧ (resyncSuffixMapping sampleMappingA).DestinationTableIdentifier
          = sampleMappingA.DestinationTableIdentifier ++ "_resync"
      ∧ (resyncSuffixMapping sampleMappingB).DestinationTableIdentifier
          = sampleMappingB.DestinationTableIdentifier
      ∧ (renameMappingStep (resyncSuffixMapping sampleMappingB)).2 = sampleMappingB) :=
  ⟨by decide, by decide,
    c7_resync_suffix_roundtrip [sampleMappingA, sampleMappingB] sampleMappingA sampleMappingB
      (by decide) (by decide)⟩
/-- C6: for a config update with non-empty `RemovedTables`, when the three
removal activities succeed they are invoked in the order
RemoveTablesFromPublication, RemoveTablesFromRawTable,
RemoveTablesFromCatalog, and afterwards neither
`SyncFlowOptions.TableMappings` (matched on `SourceTableIdentifier`) nor
`SrcTableIdNameMapping` (value-matched on qualified source name) contains an
entry whose source identifier appears in `RemovedTables`. -/
theorem c6_table_removals (penv : ProcEnv) (m : Machine) (u : CDCFlowConfigUpdate)
    (hu : m.state.FlowConfigUpdate = some u)
    (_hne : u.RemovedTables ≠ [])
    (h1 : penv.removePublicationOk = true)
    (h2 : penv.removeRawTableOk = true)
    (h3 : penv.removeCatalogOk = true) :
    ((processTableRemovals penv m).2 = none)
  ∧ ((processTableRemovals penv m).1.trace
      = m.trace ++ [.removeTablesFromPublication u.RemovedTables,
          .removeTablesFromRawTable u.RemovedTables,
          .removeTablesFromCatalog u.RemovedTables])
  ∧ (∀ tm ∈ (processTableRemovals penv m).1.state.SyncFlowOptions.TableMappings,
      tm.SourceTableIdentifier ∉ u.RemovedTables.map (fun t => t.SourceTableIdentifier))
  ∧ (∀ kv ∈ (processTableRemovals penv m).1.state.SyncFlowOptions.SrcTableIdNameMapping,
      kv.2 ∉ u.RemovedTables.map (fun t => t.SourceTableIdentifier)) := by
  unfold processTableRemovals
  rw [hu]
  refine ⟨?_, ?_, ?_, ?_⟩
  · simp [h1, h2, h3]
  · simp [h1, h2, h3, emit]
  · intro tm hm
    simp only [h1, h2, h3, Bool.not_true, Bool.false_eq_true, if_false,
      List.mem_filter] at hm
    simpa using hm.2
  · intro kv hm
    simp only [h1, h2, h3, Bool.not_true, Bool.false_eq_true, if_false,
      List.mem_filter] at hm
    simpa using hm.2

def c6Update : CDCFlowConfigUpdate :=
  { BatchSize := 0, IdleTimeout := 0, NumberOfSyncs := 0, UpdatedEnv := none,
    SnapshotNumRowsPerPartition := 0, SnapshotMaxParallelWorkers := 0,
    SnapshotNumTablesInParallel := 0, AdditionalTables := [],
    RemovedTables := [sampleMappingB] }

def c6SyncOptions : SyncFlowOptions :=
  { sampleRunningState.SyncFlowOptions with
    SrcTableIdNameMapping := [(1, "public.a"), (2, "public.b")] }

def c6Machine : Machine :=
  { cfg := sampleCfg,
    state := { sampleRunningState with
                 FlowConfigUpdate := some c6Update,
                 SyncFlowOptions := c6SyncOptions },
    cancelled := false, trace := [] }

theorem c6_witness :
    c6Machine.state.FlowConfigUpdate = some c6Update ∧ c6Update.RemovedTables ≠ [] ∧
    (((processTableRemovals sampleProcEnv c6Machine).2 = none)
      ∧ ((processTableRemovals sampleProcEnv c6Machine).1.trace
          = c6Machine.trace ++ [.removeTablesFromPublication c6Update.RemovedTables,
              .removeTablesFromRawTable c6Update.RemovedTables,
              .removeTablesFromCatalog c6Update.RemovedTables])
      ∧ (∀ tm ∈ (processTableRemovals sampleProcEnv c6Machine).1.state.SyncFlowOptions.TableMappings,
          tm.SourceTableIdentifier ∉ c6Update.RemovedTables.map (fun t => t.SourceTableIdentifier))
      ∧ (∀ kv ∈ (processTableRemovals sampleProcEnv c6Machine).1.state.SyncFlowOptions.SrcTableIdNameMapping,
          kv.2 ∉ c6Update.RemovedTables.map (fun t => t.SourceTableIdentifier))) :=
  ⟨rfl, by decide,
    c6_table_removals sampleProcEnv c6Machine c6Update rfl (by decide) rfl rfl rfl⟩
/-- C5: a config update whose `AdditionalTables` list is non-empty and does
not overlap the existing mappings (by source or destination identifier)
grows the live `SyncFlowOptions.TableMappings` by exactly
`len(AdditionalTables)` entries when the publication activity and the child
CDC flow succeed; if `AdditionalTables` is empty or overlaps, the addition
is skipped and `TableMappings` is unchanged. -/
theorem c5_table_additions (m : Machine) (u : CDCFlowConfigUpdate)
    (r : CDCFlowWorkflowState) (penv : ProcEnv)
    (hu : m.state.FlowConfigUpdate = some u)
    (hsig : m.state.ActiveSignal = .NoopSignal ∨ m.state.ActiveSignal = .PauseSignal)
    (hc : m.cancelled = false) :
    ((u.AdditionalTables ≠ [] →
      AdditionalTablesHasOverlap m.state.SyncFlowOptions.TableMappings u.AdditionalTables
          = false →
      ((processTableAdditions ⟨true, [.childDone (some r)], true, true, true⟩ m).2 = none
        ∧ (processTableAdditions ⟨true, [.childDone (some r)], true, true, true⟩
              m).1.state.SyncFlowOptions.TableMappings.length
            = m.state.SyncFlowOptions.TableMappings.length + u.AdditionalTables.length))
  ∧ ((u.AdditionalTables = []
        ∨ AdditionalTablesHasOverlap m.state.SyncFlowOptions.TableMappings u.AdditionalTables
            = true) →
      ((processTableAdditions penv m).2 = none
        ∧ (processTableAdditions penv m).1.state.SyncFlowOptions.TableMappings
            = m.state.SyncFlowOptions.TableMappings))) := by
  constructor
  · intro hne hov
    unfold processTableAdditions
    rw [hu]
    dsimp only
    rw [if_neg hne]
    rw [if_neg (by simp [hov])]
    unfold addTablesLoop
    dsimp only
    rcases hsig with hs | hs <;>
      simp [addTablesLoop, emit, updateStatus, hs, hc, List.length_append]
  · intro hskip
    unfold processTableAdditions
    rw [hu]
    dsimp only
    rcases hskip with he | hov
    · rw [if_pos he]
      simp [syncStateToConfigProtoInCatalog, emit]
    · rw [if_neg (by intro hcon; rw [hcon] at hov; simp [AdditionalTablesHasOverlap] at hov)]
      rw [if_pos hov]
      simp [syncStateToConfigProtoInCatalog, emit]

def c5NewMapping : TableMapping :=
  { SourceTableIdentifier := "public.c", DestinationTableIdentifier := "dst_c",
    PartitionKey := "", Exclude := [], Engine := .CH_ENGINE_REPLACING_MERGE_TREE }

def c5Update : CDCFlowConfigUpdate :=
  { BatchSize := 0, IdleTimeout := 0, NumberOfSyncs := 0, UpdatedEnv := none,
    SnapshotNumRowsPerPartition := 0, SnapshotMaxParallelWorkers := 0,
    SnapshotNumTablesInParallel := 0, AdditionalTables := [c5NewMapping],
    RemovedTables := [] }

def c5Machine : Machine :=
  { cfg := sampleCfg,
    state := { sampleRunningState with FlowConfigUpdate := some c5Update },
    cancelled := false, trace := [] }

def c5ChildState : CDCFlowWorkflowState :=
  { NewCDCFlowWorkflowState sampleCfg with
    SyncFlowOptions := { NewCDCFlowWorkflowState sampleCfg |>.SyncFlowOptions with
                           SrcTableIdNameMapping := [(3, "public.c")] } }

theorem c5_witness :
    c5Machine.state.FlowConfigUpdate = some c5Update ∧
    c5Machine.state.ActiveSignal = .NoopSignal ∧
    c5Machine.cancelled = false ∧
    c5Update.AdditionalTables ≠ [] ∧
    AdditionalTablesHasOverlap c5Machine.state.SyncFlowOptions.TableMappings
        c5Update.AdditionalTables = false ∧
    ((processTableAdditions ⟨true, [.childDone (some c5ChildState)], true, true, true⟩
          c5Machine).2 = none
      ∧ (processTableAdditions ⟨true, [.childDone (some c5ChildState)], true, true, true⟩
            c5Machine).1.state.SyncFlowOptions.TableMappings.length
          = c5Machine.state.SyncFlowOptions.TableMappings.length
              + c5Update.AdditionalTables.length) :=
  ⟨rfl, rfl, rfl, by decide, by decide,
    (c5_table_additions c5Machine c5Update c5ChildState
        ⟨true, [], true, true, true⟩ rfl (Or.inl rfl) rfl).1 (by decide) (by decide)⟩
